import Mathlib

/-!
Shallow embedding of the orbitworks-v2 entity/component runtime.

Sources embedded (file → section below):
* `src/engine/entities/sphereentity.ts` (concatenated translation units;
  the third unit is the current `EntityBase`) → `EntityRec` and its methods.
* `src/engine/entitycompfactory.ts` (strict factory, throws) and the unnamed
  unit `part_016` (lenient factory used by the current `EntityBase`, filters)
  → `createComponentStrict` / `createComponent`.
* unnamed unit `part_006` (`EntityComponentBase`) → `EntityComponent`.
* unnamed unit `part_003` (`HealthComponent`) → `healthLoadState` etc.
* unnamed unit `part_004` (`Physics`, the Rapier wrapper) → `PhysicsSys`.
* `src/engine/entitycomp.ts` second unit (`CollisionManager`) → `cmUpdateHandler`.
* `src/engine/threescenebase.ts` (`ThreeSceneBase`) → `Scene`,
  `saveSceneState`, `loadSceneState`.

Modelling conventions:
* JavaScript numbers are modelled as exact rationals (`ℚ`); no theorem below
  depends on floating-point rounding.  `NaN` never arises on the inputs any
  theorem evaluates; a missing (`undefined`) numeric field is `none`.
* Fallible code paths (a thrown `Error`, a `TypeError` from dereferencing
  `undefined`/`null`) are modelled with `Except String`.
* JavaScript object identity for entities is modelled by a ghost arena id
  `eid : ℕ` (the repository's own design notes describe entity identity as a
  stable integer id into an arena).
* A JavaScript `Set` built from an array keeps first occurrences in insertion
  order (`jsSetOfList`).
* `console.log`/`console.error` output is modelled as a ghost `List String`.
* `THREE.Euler` values in the embedded code paths are only ever produced by
  `setFromQuaternion` and copied; no embedded path reads their components,
  so an Euler is represented by the quaternion it was derived from.
-/

namespace Orbitworks

/-- `THREE.Vector3` with exact rational coordinates. -/
structure Vec3 where
  x : ℚ
  y : ℚ
  z : ℚ
deriving Repr, DecidableEq

def Vec3.zero : Vec3 := ⟨0, 0, 0⟩

def Vec3.one : Vec3 := ⟨1, 1, 1⟩

/-- `THREE.Quaternion`. -/
structure Quat where
  x : ℚ
  y : ℚ
  z : ℚ
  w : ℚ
deriving Repr, DecidableEq

def Quat.ident : Quat := ⟨0, 0, 0, 1⟩

/-- `THREE.Euler`, represented by the quaternion it was last set from (the
embedded code only ever writes Eulers via `setFromQuaternion` / `copy`). -/
structure Euler where
  fromQuat : Quat
deriving Repr, DecidableEq

/-- `euler.setFromQuaternion(q)`. -/
def eulerOfQuat (q : Quat) : Euler := ⟨q⟩

/-- The `Transform` interface of `shared.ts`. -/
structure Transform where
  position : Vec3
  quaternion : Quat
  rotation : Euler
  scale : Vec3
deriving Repr, DecidableEq

/-- JavaScript `v || d` for an optional number: `undefined` and `0` are falsy. -/
def jsOrNum (v : Option ℚ) (d : ℚ) : ℚ :=
  match v with
  | none => d
  | some x => if x = 0 then d else x

/-- JavaScript `v || d` for an optional/possibly-empty string. -/
def jsOrStr (v : String) (d : String) : String :=
  if v = "" then d else v

/-- `new Set(array)`: keeps the first occurrence of each element, in order. -/
def jsSetInsert (l : List String) (x : String) : List String :=
  if x ∈ l then l else l ++ [x]

def jsSetOfList (l : List String) : List String :=
  l.foldl jsSetInsert []

/-! ## Component model

`EntityComponentState` (`shared.ts`) is a dynamic bag `{name, compType, ...}`;
we carry the extra fields the embedded components read (those of
`HealthComponent`).  `EntityComponent` models `EntityComponentBase`
(`part_006`) plus, for `HealthComponent`, its private fields; the other
fifteen registered component classes carry no state any claim observes and
are modelled with payload `generic`.  `disposeCount` is ghost
instrumentation counting how many times `dispose()` has run. -/

structure EntityComponentState where
  name : String
  compType : String
  health : Option ℚ := none
  maxHealth : Option ℚ := none
  healthRegenRate : Option ℚ := none
deriving Repr, DecidableEq

inductive CompPayload
  | health (health maxHealth healthRegenRate : ℚ)
  | generic
deriving Repr, DecidableEq

structure EntityComponent where
  name : String
  compType : String
  /-- owning entity id; `undefined` after dispose -/
  entity : Option ℕ
  payload : CompPayload
  /-- ghost: number of completed `dispose()` calls -/
  disposeCount : ℕ := 0
deriving Repr, DecidableEq

def EntityComponent.isNameEqual (c : EntityComponent) (nm : String) : Bool :=
  c.name = nm

/-- `EntityComponentBase.dispose`: runs `onDispose()` (a no-op in every
embedded subclass) and clears the entity back-reference.  There is no
idempotence guard in the source; every call runs the hook again. -/
def EntityComponent.dispose (c : EntityComponent) : EntityComponent :=
  { c with entity := none, disposeCount := c.disposeCount + 1 }

/-- `HealthComponent.loadState` (`part_003`): `state.health || 100`,
`state.maxHealth || 100`, `state.healthRegenRate || 0`. -/
def healthLoadState (st : EntityComponentState) : CompPayload :=
  .health (jsOrNum st.health 100) (jsOrNum st.maxHealth 100)
    (jsOrNum st.healthRegenRate 0)

/-- `saveState`: the base class saves `{name, compType}`; `HealthComponent`
spreads in its three fields. -/
def EntityComponent.saveState (c : EntityComponent) : EntityComponentState :=
  match c.payload with
  | .health h mh r =>
      { name := c.name, compType := c.compType, health := some h,
        maxHealth := some mh, healthRegenRate := some r }
  | .generic => { name := c.name, compType := c.compType }

/-! ## Component factories

Two factories coexist in the repository.  The strict one
(`src/engine/entitycompfactory.ts`) throws on an unknown tag; the lenient one
(`part_016`), which the current `EntityBase.setComponents` resolves to,
returns `undefined` and `createComponentsFromStates` filters the result. -/

/-- Type tags registered in the lenient factory's map (`part_016`). -/
def componentTypeMap : List String :=
  ["BasicComp", "ImpulseComp", "PointLightComp", "SpotLightComp", "AudioComp",
   "CharacterController", "AiController", "SpriteComp", "AnimatedSpriteComp",
   "CameraFollow", "LauncherComp", "CollisionComp", "SpawnerComp",
   "HealthComp", "ParticleBurst", "ConvergenceBurst"]

/-- Type tags registered in the strict factory's map
(`src/engine/entitycompfactory.ts`). -/
def strictComponentTypeMap : List String :=
  ["BasicComp", "ImpulseComp", "PointLightComp", "SpotLightComp", "AudioComp"]

/-- `new ComponentClass(entity, state)`: the base constructor stores name,
type tag and owner; `HealthComponent` additionally runs its `loadState`. -/
def constructComponent (eid : ℕ) (st : EntityComponentState) : EntityComponent :=
  { name := st.name, compType := st.compType, entity := some eid,
    payload := if st.compType = "HealthComp" then healthLoadState st else .generic }

/-- Lenient `createComponent` (`part_016`): unknown tag ⇒ `undefined`. -/
def createComponent (eid : ℕ) (st : EntityComponentState) :
    Option EntityComponent :=
  if st.compType ∈ componentTypeMap then some (constructComponent eid st)
  else none

/-- Lenient `createComponentsFromStates` (`part_016`): map then filter out
`undefined`. -/
def createComponentsFromStates (eid : ℕ) (sts : List EntityComponentState) :
    List EntityComponent :=
  sts.filterMap (createComponent eid)

/-- Strict `createComponent` (`src/engine/entitycompfactory.ts`): unknown tag
⇒ `throw new Error("Unknown component type: " + tag + ".")`. -/
def createComponentStrict (eid : ℕ) (st : EntityComponentState) :
    Except String EntityComponent :=
  if st.compType ∈ strictComponentTypeMap then .ok (constructComponent eid st)
  else .error ("Unknown component type: " ++ st.compType ++ ".")

/-- Strict `createComponentsFromStates`: plain map, errors propagate. -/
def createComponentsFromStatesStrict (eid : ℕ)
    (sts : List EntityComponentState) : Except String (List EntityComponent) :=
  sts.mapM (createComponentStrict eid)

/-! ## User data, geometry and render nodes -/

/-- `MaterialData`; only `color` is touched by the embedded code paths. -/
structure MaterialData where
  color : Option ℚ := none
deriving Repr, DecidableEq

/-- `PhysicsData` (mass, friction, density, restitution; all optional). -/
structure PhysicsData where
  mass : Option ℚ := none
  friction : Option ℚ := none
  density : Option ℚ := none
  restitution : Option ℚ := none
deriving Repr, DecidableEq

/-- A native body/collider reference: the source stores either one Rapier
object or an array of them; we keep the handles. -/
inductive BodyRef
  | one (handle : ℕ)
  | many (handles : List ℕ)
deriving Repr, DecidableEq

def BodyRef.handles : BodyRef → List ℕ
  | .one h => [h]
  | .many hs => hs

/-- `PhysicsBodyData` (`part_004`). -/
structure PhysicsBodyData where
  body : Option BodyRef := none
  collider : Option BodyRef := none
deriving Repr, DecidableEq

/-- The `UserData` dynamic bag, restricted to the fields the embedded code
paths read or write (geometry parameters of the embedded entity classes,
material, physics parameters, the live physics binding, the snapshotted
transform). -/
structure UserData where
  transform : Option Transform := none
  physicsData : Option PhysicsData := none
  physics : Option PhysicsBodyData := none
  material : Option MaterialData := none
  radius : Option ℚ := none
  width : Option ℚ := none
  height : Option ℚ := none
  depth : Option ℚ := none
  resolution : Option ℚ := none
  segments : Option ℚ := none
deriving Repr, DecidableEq

/-- `geometry.parameters` as read by `getShape` (`part_004`): only the named
numeric parameters plus the raw position/index buffers of a plain
`BufferGeometry`. -/
structure GeomParams where
  width : Option ℚ := none
  height : Option ℚ := none
  depth : Option ℚ := none
  radius : Option ℚ := none
  radiusBottom : Option ℚ := none
  positions : List Vec3 := []
  indices : Option (List ℕ) := none
deriving Repr, DecidableEq

/-- A `THREE.BufferGeometry`, identified as the source does by its `type`
string plus its `parameters`. -/
structure Geometry where
  gtype : String
  params : GeomParams
deriving Repr, DecidableEq

/-- A `THREE.Object3D`/`THREE.Mesh`.  `geometry = none` models a plain
`Object3D` (no `geometry` property).  `instancePositions = some ps` models a
`THREE.InstancedMesh` whose instance matrix holds translations `ps` (the only
part of the matrix `createInstancedBody` reads). -/
structure Object3D where
  name : String := ""
  position : Vec3 := Vec3.zero
  quaternion : Quat := Quat.ident
  scale : Vec3 := Vec3.one
  visible : Bool := true
  geometry : Option Geometry := none
  instancePositions : Option (List Vec3) := none
deriving Repr, DecidableEq

/-- The `EntityState` save record (`shared.ts`). -/
structure EntityState where
  name : String
  entityType : String
  tags : List String
  gameplayTags : List String
  components : List EntityComponentState
  userData : UserData
deriving Repr, DecidableEq

/-! ## EntityBase

Embeds the current `EntityBase` (third translation unit of
`sphereentity.ts`, the one with `collide`/`damage` and the quaternion-based
`setTransform`).  `object3D = none` models the nulled reference after
`kill()`; methods that dereference it are `Except`-valued where the source
would raise a `TypeError`.  `graveyard` is ghost instrumentation: components
removed from the live list are parked there so that dispose counts remain
observable. -/

structure EntityRec where
  eid : ℕ
  object3D : Option Object3D
  entityType : String := "Box"
  alive : Bool := false
  tags : List String := []
  gameplayTags : List String := []
  components : List EntityComponent := []
  userData : UserData := {}
  /-- the `rotation` Euler cache field -/
  rotation : Euler := eulerOfQuat Quat.ident
  /-- ghost: disposed-and-detached components -/
  graveyard : List EntityComponent := []
deriving Repr, DecidableEq

/-- `setName`: `object3D.name = name || "Entity"`. -/
def EntityRec.setName (e : EntityRec) (nm : String) : Except String EntityRec :=
  match e.object3D with
  | none => .error "TypeError: object3D is null"
  | some o => .ok { e with object3D := some { o with name := jsOrStr nm "Entity" } }

/-- `setAlive`: stores the flag and mirrors it to `object3D.visible`. -/
def EntityRec.setAlive (e : EntityRec) (a : Bool) : Except String EntityRec :=
  match e.object3D with
  | none => .error "TypeError: object3D is null"
  | some o => .ok { e with alive := a, object3D := some { o with visible := a } }

/-- `setTransform` (current version): copies position and quaternion onto the
render node, the Euler into the `rotation` cache, and the scale. -/
def EntityRec.setTransform (e : EntityRec) (t : Transform) :
    Except String EntityRec :=
  match e.object3D with
  | none => .error "TypeError: object3D is null"
  | some o =>
      .ok { e with
              object3D := some { o with position := t.position,
                                        quaternion := t.quaternion,
                                        scale := t.scale },
              rotation := t.rotation }

/-- `getTransform` returns the node transform with the Euler recomputed from
the quaternion (the source also mutates the `rotation` cache; callers that
rely on that use `getTransformM`). -/
def EntityRec.getTransform? (e : EntityRec) : Option Transform :=
  e.object3D.map fun o =>
    { position := o.position, quaternion := o.quaternion,
      rotation := eulerOfQuat o.quaternion, scale := o.scale }

/-- `getPhysicsData()`: `userData.physicsData || {}`. -/
def EntityRec.getPhysicsData (e : EntityRec) : PhysicsData :=
  e.userData.physicsData.getD {}

/-- `getPhysicsBodyData()`: `userData.physics || {body: undefined,
collider: undefined}`. -/
def EntityRec.getPhysicsBodyData (e : EntityRec) : PhysicsBodyData :=
  e.userData.physics.getD {}

/-- `setPhysicsBodyData`: `undefined` deletes the field, otherwise stores. -/
def EntityRec.setPhysicsBodyData (e : EntityRec) (d : Option PhysicsBodyData) :
    EntityRec :=
  match d with
  | none => { e with userData := { e.userData with physics := none } }
  | some pbd => { e with userData := { e.userData with physics := some pbd } }

/-- `addComponent`: binds the owner reference and appends. -/
def EntityRec.addComponent (e : EntityRec) (c : EntityComponent) : EntityRec :=
  { e with components := e.components ++ [{ c with entity := some e.eid }] }

/-- `removeComponent(name)`: filters all name matches, disposes each, splices
each out of the list (the matched objects are spliced by identity, so the
net effect is: matches disposed once each and removed, order of the rest
preserved). -/
def EntityRec.removeComponent (e : EntityRec) (nm : String) : EntityRec :=
  let matched := e.components.filter (fun c => c.isNameEqual nm)
  { e with
      components := e.components.filter (fun c => ¬ c.isNameEqual nm),
      graveyard := e.graveyard ++ matched.map EntityComponent.dispose }

/-- `removeAllComponents`: disposes every component once and clears the list. -/
def EntityRec.removeAllComponents (e : EntityRec) : EntityRec :=
  { e with components := [],
           graveyard := e.graveyard ++ e.components.map EntityComponent.dispose }

/-- `kill()` (current `EntityBase`).  Early-out when `object3D` is already
nulled.  Otherwise: `alive = false`, `onDestroy()` (no-op in the embedded
subclasses), `scene.removeEntity(this, false)` (modelled at scene level;
a no-op on the entity object itself), render-resource disposal (external),
then the component list is disposed **twice** — the method contains two
successive identical `for … comp.dispose()` loops — the tag sets are
cleared, the list emptied, and every field nulled (`for key in this:
this[key] = null`; rendered here by `none`/empty values, with the ghost
`eid`/`graveyard` retained). -/
def EntityRec.kill (e : EntityRec) : EntityRec :=
  match e.object3D with
  | none => e
  | some _ =>
      { eid := e.eid, object3D := none, entityType := "", alive := false,
        tags := [], gameplayTags := [], components := [], userData := {},
        rotation := eulerOfQuat Quat.ident,
        graveyard := e.graveyard ++
          e.components.map (fun c => c.dispose.dispose) }

/-- `saveState()`: snapshots the transform into `userData` (also overwriting
`userData.physics` with `undefined`), mutates the entity's stored user data,
and returns the state record.  Returns the mutated entity together with the
produced state. -/
def EntityRec.saveState (e : EntityRec) :
    Except String (EntityRec × EntityState) :=
  match e.object3D with
  | none => .error "TypeError: object3D is null"
  | some o =>
      let t : Transform :=
        { position := o.position, quaternion := o.quaternion,
          rotation := eulerOfQuat o.quaternion, scale := o.scale }
      let ud : UserData := { e.userData with transform := some t, physics := none }
      .ok ({ e with userData := ud, rotation := eulerOfQuat o.quaternion },
           { name := o.name, entityType := e.entityType, tags := e.tags,
             gameplayTags := e.gameplayTags, userData := ud,
             components := e.components.map EntityComponent.saveState })

/-- `loadState(data)`: name, type, transform (a `TypeError` if the state has
none), tags, gameplay tags, user data, components rebuilt through the lenient
factory, then `alive = true`. -/
def EntityRec.loadState (e : EntityRec) (d : EntityState) :
    Except String EntityRec := do
  let e ← e.setName d.name
  let e := { e with entityType := d.entityType }
  let t ← match d.userData.transform with
    | some t => pure t
    | none => Except.error "TypeError: transform is undefined"
  let e ← e.setTransform t
  let e := { e with tags := jsSetOfList d.tags,
                    gameplayTags := jsSetOfList d.gameplayTags,
                    userData := d.userData,
                    components := createComponentsFromStates e.eid d.components }
  e.setAlive true

/-! ## Entity classes and the entity factory

Each subclass's `createObject3D` reads the state's transform (a `TypeError`
if it is `undefined`), bakes the transform scale into its geometry
parameters (mutating the state's user data), resets the state's scale to
identity, defaults the material colour, and returns a mesh.  A missing
numeric parameter would propagate `NaN` through the bake in JavaScript; it
is kept as `none` here, and no theorem below evaluates these paths with a
required parameter absent.  Geometry `parameters` are taken to expose the
constructor arguments (for `RoundedBoxGeometry` this is an assumption about
the three.js addon). -/

/-- `materialData = userData.material || {}; materialData.color =
materialData.color ?? 0x00ff00` — the default is written back only when the
bag already exists in the user data. -/
def bakeMaterial (m : Option MaterialData) : Option MaterialData :=
  m.map fun md => { md with color := some (md.color.getD 65280) }

/-- `SphereEntity.createObject3D`. -/
def createObject3DSphere (st : EntityState) :
    Except String (Object3D × EntityState) :=
  match st.userData.transform with
  | none => .error "TypeError: transform is undefined"
  | some t =>
      let radius := st.userData.radius.map (· * t.scale.x)
      let ud : UserData :=
        { st.userData with radius := radius,
                           transform := some { t with scale := Vec3.one },
                           material := bakeMaterial st.userData.material }
      .ok ({ geometry := some { gtype := "SphereGeometry",
                                params := { radius := radius } } },
           { st with userData := ud })

/-- `BoxEntity.createObject3D`. -/
def createObject3DBox (st : EntityState) :
    Except String (Object3D × EntityState) :=
  match st.userData.transform with
  | none => .error "TypeError: transform is undefined"
  | some t =>
      let width := st.userData.width.map (· * t.scale.x)
      let height := st.userData.height.map (· * t.scale.y)
      let depth := st.userData.depth.map (· * t.scale.z)
      let ud : UserData :=
        { st.userData with width := width, height := height, depth := depth,
                           transform := some { t with scale := Vec3.one },
                           material := bakeMaterial st.userData.material }
      .ok ({ geometry := some { gtype := "BoxGeometry",
                                params := { width := width, height := height,
                                            depth := depth } } },
           { st with userData := ud })

/-- `RoundedBoxEntity.createObject3D`; corner radius `userData.radius || 0.075`. -/
def createObject3DRoundedBox (st : EntityState) :
    Except String (Object3D × EntityState) :=
  match st.userData.transform with
  | none => .error "TypeError: transform is undefined"
  | some t =>
      let width := st.userData.width.map (· * t.scale.x)
      let height := st.userData.height.map (· * t.scale.y)
      let depth := st.userData.depth.map (· * t.scale.z)
      let radius := jsOrNum st.userData.radius (3/40)
      let ud : UserData :=
        { st.userData with width := width, height := height, depth := depth,
                           transform := some { t with scale := Vec3.one },
                           material := bakeMaterial st.userData.material }
      .ok ({ geometry := some { gtype := "RoundedBoxGeometry",
                                params := { width := width, height := height,
                                            depth := depth,
                                            radius := some radius } } },
           { st with userData := ud })

/-- `CapsuleEntity.createObject3D`. -/
def createObject3DCapsule (st : EntityState) :
    Except String (Object3D × EntityState) :=
  match st.userData.transform with
  | none => .error "TypeError: transform is undefined"
  | some t =>
      let radius := st.userData.radius.map (· * t.scale.x)
      let height := st.userData.height.map (· * t.scale.y)
      let ud : UserData :=
        { st.userData with radius := radius, height := height,
                           transform := some { t with scale := Vec3.one },
                           material := bakeMaterial st.userData.material }
      .ok ({ geometry := some { gtype := "CapsuleGeometry",
                                params := { radius := radius,
                                            height := height } } },
           { st with userData := ud })

/-- `entityTypeMap` dispatch of `src/engine/entityfactory.ts`.  The map also
registers `CheckerBox` (whose class source is absent from the repository)
and `Model` (which pulls from an external model registry); neither is needed
by any claim and they are not embedded.  Unknown type tags raise
`Entity type ... not found.` exactly as the factory does. -/
def createObject3DFor (etype : String) (st : EntityState) :
    Except String (Object3D × EntityState) :=
  if etype = "Basic" then .ok ({}, st)
  else if etype = "Box" then createObject3DBox st
  else if etype = "Sphere" then createObject3DSphere st
  else if etype = "Capsule" then createObject3DCapsule st
  else if etype = "RoundedBox" then createObject3DRoundedBox st
  else .error ("Entity type " ++ etype ++ " not found.")

/-- `createEntity` + the `EntityBase` constructor: the subclass builds the
render node from (and mutates) the state, then the base constructor runs
`loadState` on the mutated state.  `eid` is the fresh ghost identity of the
new object. -/
def createEntity (eid : ℕ) (st : EntityState) : Except String EntityRec := do
  let (obj, st2) ← createObject3DFor st.entityType st
  let e : EntityRec := { eid := eid, object3D := some obj }
  e.loadState st2

/-! ## Physics synchronization layer (`part_004`)

The Rapier world is modelled by the bodies and colliders the wrapper creates
in it, with handle counters for each arena.  `world.step` advances the
native simulation, whose numeric outcome is external; `update` therefore
returns the observable call trace (steps taken, collide notifications
dispatched). -/

inductive BodyType
  | dynamic
  | fixed
  | kinematicPositionBased
deriving Repr, DecidableEq

/-- `RAPIER.ColliderDesc` shapes producible by `getShape`/`addHeightfield`. -/
inductive ShapeDesc
  | roundCuboid (hx hy hz r : ℚ)
  | cuboid (hx hy hz : ℚ)
  | ball (r : ℚ)
  | cylinder (halfHeight r : ℚ)
  | capsule (halfHeight r : ℚ)
  | trimesh (vertices : List ℚ) (indices : List ℕ)
deriving Repr, DecidableEq

/-- A `RAPIER.ColliderDesc`: a shape plus the mutable mass properties the
wrapper sets.  The initial values mirror Rapier's defaults but are
irrelevant below: `addEntity` overwrites all four before building. -/
structure ColliderDesc where
  shape : ShapeDesc
  mass : ℚ := 0
  friction : ℚ := 1/2
  density : ℚ := 1
  restitution : ℚ := 0
deriving Repr, DecidableEq

structure RigidBody where
  handle : ℕ
  btype : BodyType
  position : Vec3
  quaternion : Quat
deriving Repr, DecidableEq

structure ColliderRec where
  handle : ℕ
  /-- handle of the parent rigid body -/
  parent : ℕ
  desc : ColliderDesc
deriving Repr, DecidableEq

def defaultGravity : Vec3 := ⟨0, -981/100, 0⟩

structure PhysWorld where
  gravity : Vec3 := defaultGravity
  nextBodyHandle : ℕ := 0
  nextColliderHandle : ℕ := 0
  bodies : List RigidBody := []
  colliders : List ColliderRec := []
deriving Repr, DecidableEq

/-- The `PhysicsState` save record (`shared.ts`). -/
structure PhysicsState where
  enabled : Bool
  helper : Bool := false
  gravity : Option Vec3 := none
deriving Repr, DecidableEq

/-- The `Physics` wrapper: its state record, the native world, the
entity-to-body-handles reverse index (`Map<Entity, number[]>`, insertion
ordered, keyed here by entity id), and the ghost console log. -/
structure PhysicsSys where
  physicsState : PhysicsState
  world : PhysWorld := {}
  entityBodyHandles : List (ℕ × List ℕ) := []
  log : List String := []
deriving Repr, DecidableEq

/-- `Map.set`: replace in place if the key exists, else append. -/
def mapSet (m : List (ℕ × List ℕ)) (k : ℕ) (v : List ℕ) :
    List (ℕ × List ℕ) :=
  if m.any (fun kv => kv.1 = k) then
    m.map (fun kv => if kv.1 = k then (k, v) else kv)
  else m ++ [(k, v)]

/-- `Map.delete`. -/
def mapDelete (m : List (ℕ × List ℕ)) (k : ℕ) : List (ℕ × List ℕ) :=
  m.filter (fun kv => kv.1 ≠ k)

/-- `getShape(geometry)`: dispatch on `geometry.type`; an undefined geometry
(a plain `Object3D` cast to `Mesh`) raises a `TypeError`; an unrecognized
type logs `console.error` and yields no shape.  Returns the optional shape
and the emitted log lines. -/
def getShape (g : Option Geometry) :
    Except String (Option ColliderDesc × List String) :=
  match g with
  | none => .error "TypeError: cannot read parameters of undefined"
  | some g =>
      let p := g.params
      if g.gtype = "RoundedBoxGeometry" then
        let sx := (p.width.map (· / 2)).getD (1/2)
        let sy := (p.height.map (· / 2)).getD (1/2)
        let sz := (p.depth.map (· / 2)).getD (1/2)
        let radius := p.radius.getD (1/10)
        .ok (some { shape := .roundCuboid (sx - radius) (sy - radius)
                                          (sz - radius) radius }, [])
      else if g.gtype = "BoxGeometry" then
        let sx := (p.width.map (· / 2)).getD (1/2)
        let sy := (p.height.map (· / 2)).getD (1/2)
        let sz := (p.depth.map (· / 2)).getD (1/2)
        .ok (some { shape := .cuboid sx sy sz }, [])
      else if g.gtype = "SphereGeometry" ∨ g.gtype = "IcosahedronGeometry" then
        .ok (some { shape := .ball (p.radius.getD 1) }, [])
      else if g.gtype = "CylinderGeometry" then
        let radius := p.radiusBottom.getD (1/2)
        let length := p.height.getD (1/2)
        .ok (some { shape := .cylinder (length / 2) radius }, [])
      else if g.gtype = "CapsuleGeometry" then
        let radius := p.radius.getD (1/2)
        let length := p.height.getD (1/2)
        .ok (some { shape := .capsule (length / 2) radius }, [])
      else if g.gtype = "BufferGeometry" then
        let vertices := p.positions.flatMap (fun v => [v.x, v.y, v.z])
        let indices := p.indices.getD (List.range p.positions.length)
        .ok (some { shape := .trimesh vertices indices }, [])
      else
        .ok (none, ["RapierPhysics: Unsupported geometry type: " ++ g.gtype])

/-- `Physics.createBody`: creates a dynamic body at the given pose, then
reclassifies it from the sign of `mass` (default dynamic; `0` fixed; `< 0`
kinematic), then builds the collider from `shape.setDensity(mass)`. -/
def PhysWorld.createBody (w : PhysWorld) (position : Vec3) (quaternion : Quat)
    (mass : ℚ) (shape : ColliderDesc) :
    PhysWorld × RigidBody × ColliderRec :=
  let btype : BodyType :=
    if mass = 0 then .fixed
    else if mass < 0 then .kinematicPositionBased
    else .dynamic
  let body : RigidBody :=
    { handle := w.nextBodyHandle, btype := btype, position := position,
      quaternion := quaternion }
  let coll : ColliderRec :=
    { handle := w.nextColliderHandle, parent := body.handle,
      desc := { shape with density := mass } }
  ({ w with nextBodyHandle := w.nextBodyHandle + 1,
            nextColliderHandle := w.nextColliderHandle + 1,
            bodies := w.bodies ++ [body],
            colliders := w.colliders ++ [coll] },
   body, coll)

/-- `Physics.createInstancedBody`: one body per instance, at the instance
translation, with identity rotation. -/
def PhysWorld.createInstancedBody (w : PhysWorld) (ps : List Vec3) (mass : ℚ)
    (shape : ColliderDesc) : PhysWorld × List RigidBody × List ColliderRec :=
  ps.foldl
    (fun acc pos =>
      let (w2, b, c) := acc.1.createBody pos Quat.ident mass shape
      (w2, acc.2.1 ++ [b], acc.2.2 ++ [c]))
    (w, [], [])

/-- `getEntityByHandle`: first reverse-index entry whose handle list
contains the handle. -/
def PhysicsSys.getEntityByHandle (p : PhysicsSys) (h : ℕ) : Option ℕ :=
  (p.entityBodyHandles.find? (fun kv => kv.2.contains h)).map (·.1)

/-- `Physics.addEntity`: no-op when the entity has no render node; a
`TypeError` when the node has no geometry; a logged no-op when the geometry
kind is unsupported; otherwise builds one body+collider (or one per
instance), stores the binding on the entity, and indexes the body handles. -/
def PhysicsSys.addEntity (p : PhysicsSys) (e : EntityRec) :
    Except String (PhysicsSys × EntityRec) :=
  match e.object3D with
  | none => .ok (p, e)
  | some mesh => do
      let (shapeOpt, logs) ← getShape mesh.geometry
      let p := { p with log := p.log ++ logs }
      match shapeOpt with
      | none => .ok (p, e)
      | some shape =>
          let options := e.getPhysicsData
          let mass := options.mass.getD 1
          let friction := options.friction.getD (1/2)
          let density := options.density.getD 1
          let restitution := options.restitution.getD (1/2)
          let shape := { shape with mass := mass, friction := friction,
                                    density := density,
                                    restitution := restitution }
          match mesh.instancePositions with
          | some ps =>
              let (w, bodies, colls) := p.world.createInstancedBody ps mass shape
              let handles := bodies.map (·.handle)
              let e := e.setPhysicsBodyData
                (some { body := some (.many handles),
                        collider := some (.many (colls.map (·.handle))) })
              .ok ({ p with world := w,
                            entityBodyHandles :=
                              mapSet p.entityBodyHandles e.eid handles }, e)
          | none =>
              let (w, body, coll) :=
                p.world.createBody mesh.position mesh.quaternion mass shape
              let e := e.setPhysicsBodyData
                (some { body := some (.one body.handle),
                        collider := some (.one coll.handle) })
              .ok ({ p with world := w,
                            entityBodyHandles :=
                              mapSet p.entityBodyHandles e.eid
                                [body.handle] }, e)

/-- `world.removeRigidBody`: Rapier also frees the body's colliders. -/
def PhysWorld.removeRigidBody (w : PhysWorld) (h : ℕ) : PhysWorld :=
  { w with bodies := w.bodies.filter (fun b => b.handle ≠ h),
           colliders := w.colliders.filter (fun c => c.parent ≠ h) }

/-- `world.removeCollider`. -/
def PhysWorld.removeColliderH (w : PhysWorld) (h : ℕ) : PhysWorld :=
  { w with colliders := w.colliders.filter (fun c => c.handle ≠ h) }

/-- `Physics.removeEntity`: removes the bound bodies and colliders (if any),
deletes the stored binding and the reverse-index entry.  Safe on an unbound
entity. -/
def PhysicsSys.removeEntity (p : PhysicsSys) (e : EntityRec) :
    PhysicsSys × EntityRec :=
  let pbd := e.getPhysicsBodyData
  let w := ((pbd.body.map BodyRef.handles).getD []).foldl
    PhysWorld.removeRigidBody p.world
  let w := ((pbd.collider.map BodyRef.handles).getD []).foldl
    PhysWorld.removeColliderH w
  let e := e.setPhysicsBodyData none
  ({ p with world := w, entityBodyHandles := mapDelete p.entityBodyHandles e.eid },
   e)

/-- A drained native collision event: two handles plus the started flag. -/
structure CollisionEvent where
  h1 : ℕ
  h2 : ℕ
  started : Bool
deriving Repr, DecidableEq

/-- Observable actions of `Physics.update`: a native `world.step` with the
configured timestep, or an `entity.collide(other, started)` dispatch
(`receiver.collide(other, started)`). -/
inductive PhysEvent
  | step (timestep : ℚ)
  | collide (receiver other : ℕ) (started : Bool)
deriving Repr, DecidableEq

/-- One drained event: if both handles resolve through the reverse index,
`threeScene.entityCollision(e1, e2, started)` runs, which calls
`e1.collide(e2, started)` then `e2.collide(e1, started)`; otherwise nothing. -/
def PhysicsSys.drainEvent (p : PhysicsSys) (ev : CollisionEvent) :
    List PhysEvent :=
  match p.getEntityByHandle ev.h1, p.getEntityByHandle ev.h2 with
  | some e1, some e2 =>
      [.collide e1 e2 ev.started, .collide e2 e1 ev.started]
  | _, _ => []

/-- `Physics.update`: when enabled, `steps = Math.ceil(dt / (1/120))`,
`world.timestep = dt / steps`, the world is stepped `steps` times, then the
event queue is drained.  `queue` is the event queue's content for this
frame (native input). -/
def PhysicsSys.update (p : PhysicsSys) (deltaTime : ℚ)
    (queue : List CollisionEvent) : List PhysEvent :=
  if ¬ p.physicsState.enabled then [] else
    let steps := (⌈deltaTime / (1/120 : ℚ)⌉).toNat
    let stepTime := deltaTime / steps
    List.replicate steps (.step stepTime) ++ queue.flatMap p.drainEvent

/-- The per-entity body of `setEnabled`'s unbind loop. -/
def removeEntitiesStep (acc : PhysicsSys × List EntityRec) (e : EntityRec) :
    PhysicsSys × List EntityRec :=
  let (p2, e2) := acc.1.removeEntity e
  (p2, acc.2 ++ [e2])

/-- The per-entity body of `setEnabled`'s re-bind loop. -/
def addEntitiesStep (acc : PhysicsSys × List EntityRec) (e : EntityRec) :
    Except String (PhysicsSys × List EntityRec) := do
  let (p2, e2) ← acc.1.addEntity e
  pure (p2, acc.2 ++ [e2])

/-- `Physics.setEnabled`: unbinds every scene entity, clears every remaining
native body, then re-binds every entity when enabling; finally updates the
helper flag (`helperEnabled` when given, else `enabled`; the debug helper
itself is visual and unmodelled). -/
def PhysicsSys.setEnabled (p : PhysicsSys) (entities : List EntityRec)
    (enabled : Bool) (helperEnabled : Option Bool) :
    Except String (PhysicsSys × List EntityRec) := do
  let p := { p with physicsState := { p.physicsState with enabled := enabled } }
  let (p, entities) := entities.foldl removeEntitiesStep (p, [])
  let p := { p with world := { p.world with bodies := [], colliders := [] } }
  let (p, entities) ←
    if enabled then
      entities.foldlM addEntitiesStep (p, ([] : List EntityRec))
    else
      pure (p, entities)
  let hf := helperEnabled.getD enabled
  pure ({ p with physicsState := { p.physicsState with helper := hf } }, entities)

/-- `Physics.saveState`: a copy of the state record. -/
def PhysicsSys.saveState (p : PhysicsSys) : PhysicsState :=
  p.physicsState

/-- `Physics.loadState`: `setEnabled(state.enabled, state.helper)`, then
`setGravity(state.gravity || default)` (which writes the old state record
and the world), then the whole state record is replaced by `state`. -/
def PhysicsSys.loadState (p : PhysicsSys) (entities : List EntityRec)
    (st : PhysicsState) : Except String (PhysicsSys × List EntityRec) := do
  let (p, entities) ← p.setEnabled entities st.enabled (some st.helper)
  let g := st.gravity.getD defaultGravity
  let p := { p with physicsState := { p.physicsState with gravity := some g },
                    world := { p.world with gravity := g } }
  let p := { p with physicsState := st }
  pure (p, entities)

/-! ## Bounding-volume collision manager (`CollisionManager`)

The sweep consumes only `entity.getAlive()` and the axis-aligned box that
`Box3.setFromObject(entity.getObject3D())` computes; both are supplied as
snapshot functions on entity ids (`setFromObject` traverses three.js
geometry, an external computation; callbacks are recorded as emitted pairs).
Each handler holds two `Set<Entity>`s, modelled as duplicate-free id lists
in insertion order.  The nested `forEach` mutates both sets while they are
iterated: each delete statement removes only the member currently being
visited on its own side, so no pending member of the side being iterated is
ever skipped within one pass, but the inner loop of a later outer iteration
runs over the B set as already pruned — once the B set has been emptied,
the inner loop body (and with it the A-side delete statement) never runs
again, and later dead A members survive the sweep. -/

structure Box3 where
  min : Vec3
  max : Vec3
deriving Repr, DecidableEq

/-- `THREE.Box3.intersectsBox` (`a.intersectsBox b`). -/
def Box3.intersectsBox (a b : Box3) : Bool :=
  if b.max.x < a.min.x ∨ b.min.x > a.max.x ∨
     b.max.y < a.min.y ∨ b.min.y > a.max.y ∨
     b.max.z < a.min.z ∨ b.min.z > a.max.z
  then false else true

/-- An `ICollisionHandler` (name, A-side set, B-side set; the callback is
recorded, not stored). -/
structure CollisionHandler where
  name : String
  entitiesA : List ℕ
  entitiesB : List ℕ
deriving Repr, DecidableEq

/-- The per-pair body of the sweep: `entityA !== entityB && entityA.getAlive()
&& entityB.getAlive()` guarding `checkCollision` guarding the callback. -/
def cmPair (alive : ℕ → Bool) (boxOf : ℕ → Box3) (a b : ℕ) : Option (ℕ × ℕ) :=
  if a ≠ b ∧ alive a ∧ alive b ∧
     Box3.intersectsBox (boxOf a) (boxOf b) then some (a, b) else none

/-- One iteration of the inner `forEach` body in `CollisionManager.update`,
for the current outer member `a` and inner member `b`: the guarded callback
(`cmPair`), then the two delete statements — `entitiesA.delete(entityA)`
when `a` is dead only ever removes the outer member itself and is recorded
in a Boolean flag, and `entitiesB.delete(entityB)` when `b` is dead drops
`b` from the surviving B list.  The accumulator is (emitted calls, A-delete
flag, surviving B members in order). -/
def cmInnerStep (alive : ℕ → Bool) (boxOf : ℕ → Box3) (a : ℕ)
    (acc : List (ℕ × ℕ) × Bool × List ℕ) (b : ℕ) :
    List (ℕ × ℕ) × Bool × List ℕ :=
  (acc.1 ++ (cmPair alive boxOf a b).toList,
   acc.2.1 || !alive a,
   if alive b then acc.2.2 ++ [b] else acc.2.2)

/-- One iteration of the outer `forEach` over the A set: the inner loop runs
over the B set as it stands now (a JavaScript `Set.forEach` never visits a
member that an earlier outer iteration already deleted), and `a` survives
unless its delete statement ran, which requires the inner body to have run
at least once.  The accumulator is (emitted calls, surviving A members,
current B set). -/
def cmOuterStep (alive : ℕ → Bool) (boxOf : ℕ → Box3)
    (acc : List (ℕ × ℕ) × List ℕ × List ℕ) (a : ℕ) :
    List (ℕ × ℕ) × List ℕ × List ℕ :=
  let r := acc.2.2.foldl (cmInnerStep alive boxOf a) (acc.1, false, [])
  (r.1, if r.2.1 then acc.2.1 else acc.2.1 ++ [a], r.2.2)

/-- One handler's sweep in `CollisionManager.update`: the nested `forEach`
over the two mutating sets. -/
def cmUpdateHandler (alive : ℕ → Bool) (boxOf : ℕ → Box3)
    (h : CollisionHandler) : CollisionHandler × List (ℕ × ℕ) :=
  let r := h.entitiesA.foldl (cmOuterStep alive boxOf) ([], [], h.entitiesB)
  ({ h with entitiesA := r.2.1, entitiesB := r.2.2 }, r.1)

/-- `CollisionManager.update`: sweep every registered handler, tagging each
emitted pair with the handler's name. -/
def cmUpdate (alive : ℕ → Bool) (boxOf : ℕ → Box3)
    (handlers : List CollisionHandler) :
    List CollisionHandler × List (String × ℕ × ℕ) :=
  handlers.foldl
    (fun acc h =>
      let (h2, calls) := cmUpdateHandler alive boxOf h
      (acc.1 ++ [h2], acc.2 ++ calls.map (fun ab => (h.name, ab))))
    ([], [])

/-! ## Scene (`ThreeSceneBase`)

Rendering, audio, weather simulation, multiplayer, web workers and speech
are external collaborators; of their state the scene save/load path copies
`paused`, the camera parameters, the weather record and the physics record.
The speech manager's class source is absent from the repository and its
state is orthogonal to every claim; it is omitted.  `nextEid` is the ghost
arena allocator providing fresh object identities. -/

structure Camera where
  fov : ℚ := 75
  near : ℚ := 1/10
  far : ℚ := 1000
  position : Vec3 := Vec3.zero
  quaternion : Quat := Quat.ident
  rotation : Euler := eulerOfQuat Quat.ident
  scale : Vec3 := Vec3.one
deriving Repr, DecidableEq

structure CameraState where
  fov : ℚ
  near : ℚ
  far : ℚ
  transform : Transform
deriving Repr, DecidableEq

/-- What `WeatherManager.saveState` actually returns (`{enabled, timeOfDay}`;
the `fogDensity` declared on the TS interface is not saved). -/
structure WeatherState where
  enabled : Bool
  timeOfDay : ℚ
deriving Repr, DecidableEq

structure WeatherSys where
  enabled : Bool := true
  timeOfDay : ℚ := 0
  fogDensity : ℚ := 0
deriving Repr, DecidableEq

/-- The `ThreeSceneState` save document. -/
structure ThreeSceneState where
  paused : Bool
  weather : WeatherState
  camera : CameraState
  physics : PhysicsState
  entities : List EntityState
deriving Repr, DecidableEq

structure Scene where
  paused : Bool := false
  killY : ℚ := -10
  camera : Camera := {}
  weather : WeatherSys := {}
  physics : PhysicsSys
  entities : List EntityRec := []
  /-- ghost arena allocator for fresh entity identities -/
  nextEid : ℕ := 0
deriving Repr, DecidableEq

/-- `ThreeSceneBase.addEntity`: adds to the set, grafts the render node
(external), binds the scene back-reference, and optionally binds physics. -/
def Scene.addEntity (s : Scene) (e : EntityRec) (isPhysicsObject : Bool) :
    Except String Scene :=
  if isPhysicsObject then do
    let (p, e2) ← s.physics.addEntity e
    pure { s with physics := p, entities := s.entities ++ [e2] }
  else
    pure { s with entities := s.entities ++ [e] }

/-- `ThreeSceneBase.removeEntity`: when present, detaches the render node,
unbinds physics, deletes from the set and (when `kill`) kills the entity.
The killed object is no longer reachable from the scene; `kill`'s re-entrant
`scene.removeEntity(this, false)` is a no-op because the entity is already
deleted from the set. -/
def Scene.removeEntity (s : Scene) (e : EntityRec) (kill : Bool) : Scene :=
  if s.entities.any (fun x => x.eid = e.eid) then
    let (p, e2) := s.physics.removeEntity e
    let _ := if kill then e2.kill else e2
    { s with physics := p,
             entities := s.entities.filter (fun x => x.eid ≠ e.eid) }
  else s

/-- The per-entity body of `saveSceneState`'s aggregation. -/
def saveSceneStep (acc : List EntityRec × List EntityState) (e : EntityRec) :
    Except String (List EntityRec × List EntityState) := do
  let (e2, st) ← e.saveState
  pure (acc.1 ++ [e2], acc.2 ++ [st])

/-- `saveSceneState`. -/
def saveSceneState (s : Scene) : Except String (Scene × ThreeSceneState) := do
  let (entities, states) ← s.entities.foldlM saveSceneStep
    (([] : List EntityRec), ([] : List EntityState))
  pure ({ s with entities := entities },
        { paused := s.paused,
          camera := { fov := s.camera.fov, near := s.camera.near,
                      far := s.camera.far,
                      transform := { position := s.camera.position,
                                     quaternion := s.camera.quaternion,
                                     rotation := eulerOfQuat s.camera.quaternion,
                                     scale := s.camera.scale } },
          weather := { enabled := s.weather.enabled,
                       timeOfDay := s.weather.timeOfDay },
          physics := s.physics.saveState,
          entities := states })

/-- The per-state body of `createEntities`'s construction loop (with the
ghost identity allocator threaded through). -/
def createEntitiesStep (acc : List EntityRec × ℕ) (st : EntityState) :
    Except String (List EntityRec × ℕ) := do
  let e ← createEntity acc.2 st
  pure (acc.1 ++ [e], acc.2 + 1)

/-- `createAddEntities` (`entityfactory.ts`): construct every entity from its
state (fresh identities), then `scene.addEntity(entity, true)` each. -/
def createAddEntities (s : Scene) (sts : List EntityState) :
    Except String Scene := do
  let (es, nid) ← sts.foldlM createEntitiesStep
    (([] : List EntityRec), s.nextEid)
  let s := { s with nextEid := nid }
  es.foldlM (fun sc e => sc.addEntity e true) s

/-- `loadSceneState`: removes (and kills) every current entity, restores
paused/camera/weather, reconstructs the entities through the factory, then
`physics.loadState` (a full unbind/rebind of every entity). -/
def loadSceneState (s : Scene) (st : ThreeSceneState) : Except String Scene := do
  let s := s.entities.foldl (fun sc e => sc.removeEntity e true) s
  let s := { s with paused := st.paused }
  let s := { s with camera := { fov := st.camera.fov, near := st.camera.near,
                                far := st.camera.far,
                                position := st.camera.transform.position,
                                quaternion := st.camera.transform.quaternion,
                                rotation := st.camera.transform.rotation,
                                scale := st.camera.transform.scale } }
  let s := { s with weather := { s.weather with
                                   enabled := st.weather.enabled,
                                   timeOfDay := st.weather.timeOfDay } }
  let s ← createAddEntities s st.entities
  let (p, es) ← s.physics.loadState s.entities st.physics
  pure { s with physics := p, entities := es }

/-! ## Observables and well-formedness predicates used by the theorems -/

/-- The geometry type strings `getShape` maps to a collider shape. -/
def supportedGeomTypes : List String :=
  ["RoundedBoxGeometry", "BoxGeometry", "SphereGeometry",
   "IcosahedronGeometry", "CylinderGeometry", "CapsuleGeometry",
   "BufferGeometry"]

/-- Recognizer for the native-step events of a physics update trace. -/
def isStepEv : PhysEvent → Bool
  | .step _ => true
  | .collide _ _ _ => false

/-- The ordered component-type list of an entity. -/
def compTypesOf (e : EntityRec) : List String :=
  e.components.map (·.compType)

/-- The embedded geometric entity types (their `createObject3D` builds a mesh
whose geometry `getShape` supports). -/
def geometricEntityTypes : List String :=
  ["Box", "Sphere", "Capsule", "RoundedBox"]

/-- Well-formedness of a live entity for the round-trip theorem: a render
node with identity scale (the form every geometric entity constructor
normalizes to), a geometric registered entity type with its geometry
parameters present in the user data, and only registered component types. -/
def entityWF (e : EntityRec) : Bool :=
  (match e.object3D with
   | some o => o.scale = Vec3.one
   | none => false) &&
  e.entityType ∈ geometricEntityTypes &&
  (if e.entityType = "Sphere" then e.userData.radius.isSome
   else if e.entityType = "Capsule" then
     e.userData.radius.isSome && e.userData.height.isSome
   else e.userData.width.isSome && e.userData.height.isSome &&
        e.userData.depth.isSome) &&
  e.components.all (fun c => c.compType ∈ componentTypeMap)

/-- Well-formedness of a scene: well-formed entities with distinct ghost
identities. -/
def sceneWF (s : Scene) : Bool :=
  s.entities.all entityWF && (s.entities.map (·.eid)).Nodup

/-- The whole round trip: save, then load the produced document. -/
def sceneRoundTrip (s : Scene) : Except String Scene :=
  (saveSceneState s).bind (fun p => loadSceneState p.1 p.2)

/-- The transform `getTransform` captures from a render node. -/
def transformOfObj (o : Object3D) : Transform :=
  { position := o.position, quaternion := o.quaternion,
    rotation := eulerOfQuat o.quaternion, scale := o.scale }

/-- Total companion of `saveState`'s produced state record (the `none`
branch is unreachable under the theorems' hypotheses and is tied to
`saveState` by `saveState_eq`). -/
def entitySavedState (e : EntityRec) : EntityState :=
  match e.object3D with
  | some o =>
      { name := o.name, entityType := e.entityType, tags := e.tags,
        gameplayTags := e.gameplayTags,
        userData :=
          { e.userData with
              transform := some (transformOfObj o), physics := none },
        components := e.components.map EntityComponent.saveState }
  | none =>
      { name := "", entityType := e.entityType, tags := [],
        gameplayTags := [], userData := {}, components := [] }

/-- Whether the entity's render node is a mesh whose geometry `getShape`
supports — the condition under which `Physics.addEntity` neither throws nor
skips. -/
def hasSupportedMesh (e : EntityRec) : Bool :=
  match e.object3D with
  | some o =>
      match o.geometry with
      | some g => g.gtype ∈ supportedGeomTypes
      | none => false
  | none => false

/-- Well-formedness of an entity-state record for reconstruction: a
geometric registered type, a transform with identity scale, and only
registered component types. -/
def stateWF (st : EntityState) : Bool :=
  st.entityType ∈ geometricEntityTypes &&
  (match st.userData.transform with
   | some t => t.scale = Vec3.one
   | none => false) &&
  st.components.all (fun c => c.compType ∈ componentTypeMap)

/-- A live scene holding one sphere entity whose render node carries a
non-identity scale `(2, 1, 1)` (set after construction, e.g. via
`setTransform`); used to refute the round-trip claim as stated. -/
def sceneScaleCex : Scene :=
  { physics := { physicsState := { enabled := true } },
    entities :=
      [{ eid := 0,
         object3D := some
           { name := "ball",
             position := ⟨0, 5, 0⟩,
             scale := ⟨2, 1, 1⟩,
             geometry := some { gtype := "SphereGeometry",
                                params := { radius := some 1 } } },
         entityType := "Sphere",
         alive := true,
         userData := { radius := some 1 } }],
    nextEid := 1 }

/-- A well-formed live scene (identity scale, registered types) with one
sphere carrying a `HealthComp`; used as the round-trip witness. -/
def sceneWFEx : Scene :=
  { physics := { physicsState := { enabled := true } },
    entities :=
      [{ eid := 0,
         object3D := some
           { name := "ball",
             position := ⟨0, 5, 0⟩,
             scale := Vec3.one,
             geometry := some { gtype := "SphereGeometry",
                                params := { radius := some 1 } } },
         entityType := "Sphere",
         alive := true,
         components := [{ name := "hp", compType := "HealthComp",
                          entity := some 0, payload := .health 50 100 0 }],
         userData := { radius := some 1 } }],
    nextEid := 1 }

/-! # Theorems -/

/-- C10: `HealthComponent.loadState` maps a `health` field that is `0` or
absent to `100` (and likewise `maxHealth`), so a component saved at zero
health is restored at full health by the factory round trip. -/
theorem healthComponent_zero_restored_full
    (st : EntityComponentState) (eid : ℕ) (c : EntityComponent) (mh r : ℚ)
    (hh : st.health = some 0 ∨ st.health = none)
    (hm : st.maxHealth = some 0 ∨ st.maxHealth = none)
    (hti : c.compType = "HealthComp") (hp : c.payload = .health 0 mh r) :
    healthLoadState st = .health 100 100 (jsOrNum st.healthRegenRate 0) ∧
    (constructComponent eid c.saveState).payload =
      .health 100 (jsOrNum (some mh) 100) (jsOrNum (some r) 0) := by
  constructor
  · unfold healthLoadState
    rcases hh with h | h <;> rcases hm with h2 | h2 <;>
      simp [h, h2, jsOrNum]
  · simp [EntityComponent.saveState, hp, constructComponent, hti,
          healthLoadState, jsOrNum]

/-- Witness for C10 at a concrete zero-health blob and a concrete
zero-health component. -/
theorem healthComponent_zero_restored_full_witness :
    healthLoadState { name := "h", compType := "HealthComp",
                      health := some 0 } = .health 100 100 0 ∧
    (constructComponent 0
        (EntityComponent.saveState
          { name := "h", compType := "HealthComp", entity := some 0,
            payload := .health 0 80 5 })).payload = .health 100 80 5 := by
  have h := healthComponent_zero_restored_full
    { name := "h", compType := "HealthComp", health := some 0 } 0
    { name := "h", compType := "HealthComp", entity := some 0,
      payload := .health 0 80 5 } 80 5
    (Or.inl rfl) (Or.inr rfl) rfl rfl
  exact ⟨h.1, by simpa [jsOrNum] using h.2⟩

/-- C3 counterexample: the component factory the current entity base resolves
to (`part_016`) does not fail fast on an unrecognized tag — `createComponent`
silently produces no component and `createComponentsFromStates` silently
drops the record. -/
theorem createComponent_unknown_tag_cex :
    createComponent 0 { name := "c", compType := "MysteryComp" } = none ∧
    createComponentsFromStates 0
      [{ name := "c", compType := "MysteryComp" }] = [] := by
  constructor <;> decide

/-- C3 (amended): the repository has two disagreeing factory code paths: the
strict factory (`entitycompfactory.ts`) fails fast with a descriptive error
naming the unrecognized tag, while the lenient factory (`part_016`) yields
no component at all and its `createComponentsFromStates` filters the record
out without an error. -/
theorem createComponent_unknown_tag
    (eid : ℕ) (st : EntityComponentState)
    (hs : st.compType ∉ strictComponentTypeMap)
    (hl : st.compType ∉ componentTypeMap) :
    createComponentStrict eid st =
      .error ("Unknown component type: " ++ st.compType ++ ".") ∧
    createComponent eid st = none ∧
    ∀ sts : List EntityComponentState,
      createComponentsFromStates eid (st :: sts) =
        createComponentsFromStates eid sts := by
  refine ⟨?_, ?_, ?_⟩ <;>
    simp [createComponentStrict, createComponent,
          createComponentsFromStates, hs, hl]

/-- Witness for C3 (amended) at the tag `MysteryComp`. -/
theorem createComponent_unknown_tag_witness :
    createComponentStrict 0 { name := "c", compType := "MysteryComp" } =
      .error "Unknown component type: MysteryComp." ∧
    createComponent 0 { name := "c", compType := "MysteryComp" } = none := by
  have h := createComponent_unknown_tag 0
    { name := "c", compType := "MysteryComp" } (by decide) (by decide)
  exact ⟨h.1, h.2.1⟩

/-- C2 counterexample: killing an entity with one attached component runs
the component's dispose hook exactly twice (the `kill` method contains two
successive dispose loops), not exactly once. -/
theorem kill_double_dispose_cex :
    ((EntityRec.kill
        { eid := 0, object3D := some {}, alive := true,
          components := [{ name := "hp", compType := "BasicComp",
                           entity := some 0,
                           payload := .generic }] }).graveyard.map
      (fun c => c.disposeCount)) = [2] := by
  decide

/-- C2 (amended): `removeComponent` disposes each removed component exactly
once; entity `kill` invokes each attached component's dispose hook exactly
twice; a repeated `kill` is a no-op and adds no further dispose calls. -/
theorem component_dispose_counts
    (e : EntityRec) (o : Object3D) (nm : String) (ho : e.object3D = some o) :
    ((e.removeComponent nm).graveyard =
       e.graveyard ++ (e.components.filter (fun c => c.isNameEqual nm)).map
         EntityComponent.dispose) ∧
    (∀ c : EntityComponent, (c.dispose).disposeCount = c.disposeCount + 1) ∧
    ((e.kill).graveyard =
       e.graveyard ++ e.components.map (fun c => c.dispose.dispose)) ∧
    (∀ c : EntityComponent,
       (c.dispose.dispose).disposeCount = c.disposeCount + 2) ∧
    (e.kill).kill = e.kill := by
  refine ⟨rfl, fun c => rfl, ?_, fun c => rfl, ?_⟩
  · simp [EntityRec.kill, ho]
  · simp [EntityRec.kill, ho]

/-- Witness for C2 (amended) at a concrete one-component entity. -/
theorem component_dispose_counts_witness :
    ((EntityRec.removeComponent
        { eid := 0, object3D := some {}, alive := true,
          components := [{ name := "hp", compType := "BasicComp",
                           entity := some 0, payload := .generic }] }
        "hp").graveyard.map (fun c => c.disposeCount)) = [1] ∧
    ((EntityRec.kill
        { eid := 0, object3D := some {}, alive := true,
          components := [{ name := "hp", compType := "BasicComp",
                           entity := some 0, payload := .generic }] }).kill =
      EntityRec.kill
        { eid := 0, object3D := some {}, alive := true,
          components := [{ name := "hp", compType := "BasicComp",
                           entity := some 0, payload := .generic }] }) := by
  have h := component_dispose_counts
    { eid := 0, object3D := some {}, alive := true,
      components := [{ name := "hp", compType := "BasicComp",
                       entity := some 0, payload := .generic }] }
    {} "hp" rfl
  refine ⟨?_, h.2.2.2.2⟩
  rw [h.1]
  decide

/-- C9: `saveState` overwrites `userData.physics` with `undefined` in
addition to snapshotting the transform, so a subsequent
`getPhysicsBodyData()` returns the empty default binding regardless of any
native bodies still present in the physics world (the result never consults
the world); all user-data fields other than `transform` and `physics` are
unchanged, and the returned state shares the mutated user data. -/
theorem saveState_clears_physics
    (e : EntityRec) (o : Object3D) (ho : e.object3D = some o) :
    ∃ e2 st, e.saveState = .ok (e2, st) ∧
      e2.userData.physics = none ∧
      e2.getPhysicsBodyData = { body := none, collider := none } ∧
      e2.userData.transform = e.getTransform? ∧
      st.userData = e2.userData ∧
      e2.userData.physicsData = e.userData.physicsData ∧
      e2.userData.material = e.userData.material ∧
      e2.userData.radius = e.userData.radius ∧
      e2.userData.width = e.userData.width ∧
      e2.userData.height = e.userData.height ∧
      e2.userData.depth = e.userData.depth ∧
      e2.userData.resolution = e.userData.resolution ∧
      e2.userData.segments = e.userData.segments ∧
      e2.components = e.components := by
  obtain ⟨eid, o3, et, al, tg, gt, cs, ud, rot, gr⟩ := e
  have ho2 : o3 = some o := ho
  subst ho2
  exact ⟨_, _, rfl, rfl, rfl, rfl, rfl, rfl, rfl, rfl, rfl, rfl, rfl, rfl,
         rfl, rfl⟩

/-- Witness for C9 at a concrete entity carrying a physics binding. -/
theorem saveState_clears_physics_witness :
    ∃ e2 st,
      EntityRec.saveState
        { eid := 0, object3D := some {}, alive := true,
          userData := { physics := some { body := some (.one 4),
                                          collider := some (.one 4) },
                        radius := some 3 } } = .ok (e2, st) ∧
      e2.userData.physics = none ∧
      e2.getPhysicsBodyData = { body := none, collider := none } ∧
      e2.userData.radius = some 3 := by
  have h := saveState_clears_physics
    { eid := 0, object3D := some {}, alive := true,
      userData := { physics := some { body := some (.one 4),
                                      collider := some (.one 4) },
                    radius := some 3 } } {} rfl
  obtain ⟨e2, st, hok, hphys, hpbd, -, -, -, -, hrad, -⟩ := h
  exact ⟨e2, st, hok, hphys, hpbd, hrad⟩

/-- Helper: `getShape` on a geometry of unsupported type logs and yields no
shape. -/
theorem getShape_unsupported (g : Geometry)
    (hns : g.gtype ∉ supportedGeomTypes) :
    getShape (some g) =
      .ok (none, ["RapierPhysics: Unsupported geometry type: " ++ g.gtype]) := by
  simp only [supportedGeomTypes, List.mem_cons, List.not_mem_nil, or_false,
             not_or] at hns
  obtain ⟨n1, n2, n3, n4, n5, n6, n7⟩ := hns
  simp [getShape, n1, n2, n3, n4, n5, n6, n7]

/-- C5: `Physics.addEntity` on an entity whose mesh geometry kind has no
collider-shape mapping creates no native body or collider, logs the
unsupported geometry type, does not throw, and leaves the entity without a
physics binding — the only change anywhere is the log line. -/
theorem addEntity_unsupported_geometry
    (p : PhysicsSys) (e : EntityRec) (o : Object3D) (g : Geometry)
    (ho : e.object3D = some o) (hg : o.geometry = some g)
    (hns : g.gtype ∉ supportedGeomTypes) :
    p.addEntity e =
      .ok ({ p with log := p.log ++
              ["RapierPhysics: Unsupported geometry type: " ++ g.gtype] },
           e) ∧
    ∀ p2 e2, p.addEntity e = .ok (p2, e2) →
      p2.world = p.world ∧ p2.entityBodyHandles = p.entityBodyHandles ∧
      e2 = e := by
  have hmain : p.addEntity e =
      .ok ({ p with log := p.log ++
              ["RapierPhysics: Unsupported geometry type: " ++ g.gtype] },
           e) := by
    simp [PhysicsSys.addEntity, ho, hg, getShape_unsupported g hns,
          Bind.bind, Except.bind]
  refine ⟨hmain, fun p2 e2 h => ?_⟩
  rw [hmain] at h
  obtain ⟨h1, h2⟩ := Prod.mk.injEq .. ▸ Except.ok.inj h
  exact ⟨h1 ▸ rfl, h1 ▸ rfl, h2.symm⟩

/-- Witness for C5 at a concrete torus-geometry entity. -/
theorem addEntity_unsupported_geometry_witness :
    PhysicsSys.addEntity { physicsState := { enabled := true } }
        { eid := 3,
          object3D := some { geometry := some { gtype := "TorusGeometry",
                                                params := {} } },
          alive := true } =
      .ok ({ physicsState := { enabled := true },
             log := ["RapierPhysics: Unsupported geometry type: TorusGeometry"] },
           { eid := 3,
             object3D := some { geometry := some { gtype := "TorusGeometry",
                                                   params := {} } },
             alive := true }) := by
  have h := addEntity_unsupported_geometry
    { physicsState := { enabled := true } }
    { eid := 3,
      object3D := some { geometry := some { gtype := "TorusGeometry",
                                            params := {} } },
      alive := true }
    { geometry := some { gtype := "TorusGeometry", params := {} } }
    { gtype := "TorusGeometry", params := {} } rfl rfl (by decide)
  exact h.1

/-- Helper: a drained event dispatch never emits a native-step event. -/
theorem drainEvent_no_step (p : PhysicsSys) (ev : CollisionEvent) :
    ∀ x ∈ p.drainEvent ev, isStepEv x = false := by
  intro x hx
  unfold PhysicsSys.drainEvent at hx
  rcases h1 : p.getEntityByHandle ev.h1 with _ | e1 <;>
    rcases h2 : p.getEntityByHandle ev.h2 with _ | e2 <;>
    rw [h1, h2] at hx
  · simp at hx
  · simp at hx
  · simp at hx
  · simp at hx
    rcases hx with h | h <;> simp [h, isStepEv]

/-- C6: with physics enabled and `deltaTime > 0`, the update performs exactly
`⌈dt / (1/120)⌉` native substeps (at least one), each with timestep
`dt / steps`, all of them before any collision event is dispatched. -/
theorem physics_update_substeps
    (p : PhysicsSys) (dt : ℚ) (queue : List CollisionEvent)
    (hen : p.physicsState.enabled = true) (hdt : 0 < dt) :
    p.update dt queue =
      List.replicate (⌈dt / (1/120 : ℚ)⌉.toNat)
        (.step (dt / ((⌈dt / (1/120 : ℚ)⌉.toNat : ℕ) : ℚ))) ++
      queue.flatMap p.drainEvent ∧
    0 < ⌈dt / (1/120 : ℚ)⌉.toNat ∧
    ((p.update dt queue).filter isStepEv).length =
      ⌈dt / (1/120 : ℚ)⌉.toNat ∧
    ∀ x ∈ queue.flatMap p.drainEvent, isStepEv x = false := by
  have hpos : 0 < ⌈dt / (1/120 : ℚ)⌉ := by
    apply Int.ceil_pos.mpr
    positivity
  have heq : p.update dt queue =
      List.replicate (⌈dt / (1/120 : ℚ)⌉.toNat)
        (.step (dt / ((⌈dt / (1/120 : ℚ)⌉.toNat : ℕ) : ℚ))) ++
      queue.flatMap p.drainEvent := by
    simp [PhysicsSys.update, hen]
  have hnostep : ∀ x ∈ queue.flatMap p.drainEvent, isStepEv x = false := by
    intro x hx
    rw [List.mem_flatMap] at hx
    obtain ⟨ev, -, hmem⟩ := hx
    exact drainEvent_no_step p ev x hmem
  refine ⟨heq, by omega, ?_, hnostep⟩
  rw [heq, List.filter_append]
  have h1 : (List.replicate (⌈dt / (1/120 : ℚ)⌉.toNat)
      (PhysEvent.step (dt / ((⌈dt / (1/120 : ℚ)⌉.toNat : ℕ) : ℚ)))).filter
        isStepEv =
      List.replicate (⌈dt / (1/120 : ℚ)⌉.toNat)
        (PhysEvent.step (dt / ((⌈dt / (1/120 : ℚ)⌉.toNat : ℕ) : ℚ))) := by
    apply List.filter_eq_self.mpr
    intro a ha
    rw [List.eq_of_mem_replicate ha]
    rfl
  have h2 : (queue.flatMap p.drainEvent).filter isStepEv = [] := by
    apply List.filter_eq_nil_iff.mpr
    intro a ha
    simp [hnostep a ha]
  rw [h1, h2]
  simp

/-- Witness for C6 at `dt = 1/50` (three substeps of `1/150`). -/
theorem physics_update_substeps_witness :
    PhysicsSys.update { physicsState := { enabled := true } } (1/50) [] =
      List.replicate 3 (.step (1/150)) := by
  have h := physics_update_substeps { physicsState := { enabled := true } }
    (1/50) [] rfl (by norm_num)
  have h3 : ⌈(1/50 : ℚ) / (1/120)⌉ = (3 : ℤ) := by
    rw [Int.ceil_eq_iff]
    norm_num
  rw [h.1, h3]
  have harg : (1/50 : ℚ) / ((Int.toNat 3 : ℕ) : ℚ) = 1/150 := by
    norm_num [show Int.toNat 3 = 3 from rfl]
  rw [harg]
  simp

/-- C7: the kinematic classification of every created body is determined by
the sign of the mass (`mass > 0` dynamic, `mass == 0` static/fixed,
`mass < 0` kinematic); and when the entity has no physics parameters set,
`addEntity` binds with the defaults `mass = 1` (hence a dynamic body),
`friction = 0.5`, `density = 1`, `restitution = 0.5`. -/
theorem physics_mass_classification
    (w : PhysWorld) (pos : Vec3) (q : Quat) (mass : ℚ) (shape : ColliderDesc)
    (p : PhysicsSys) (e : EntityRec) (o : Object3D) (g : Geometry)
    (cd : ColliderDesc) (logs : List String)
    (ho : e.object3D = some o) (hg : o.geometry = some g)
    (hni : o.instancePositions = none)
    (hgs : getShape (some g) = .ok (some cd, logs))
    (hpd : e.userData.physicsData = none) :
    ((0 < mass → ((w.createBody pos q mass shape).2.1).btype = .dynamic) ∧
     (mass = 0 → ((w.createBody pos q mass shape).2.1).btype = .fixed) ∧
     (mass < 0 →
       ((w.createBody pos q mass shape).2.1).btype =
         .kinematicPositionBased)) ∧
    ∃ p2 e2, p.addEntity e = .ok (p2, e2) ∧
      p2.world.bodies = p.world.bodies ++
        [{ handle := p.world.nextBodyHandle, btype := .dynamic,
           position := o.position, quaternion := o.quaternion }] ∧
      p2.world.colliders = p.world.colliders ++
        [{ handle := p.world.nextColliderHandle,
           parent := p.world.nextBodyHandle,
           desc := { shape := cd.shape, mass := 1, friction := 1/2,
                     density := 1, restitution := 1/2 } }] ∧
      e2.userData.physics =
        some { body := some (.one p.world.nextBodyHandle),
               collider := some (.one p.world.nextColliderHandle) } := by
  constructor
  · refine ⟨fun hm => ?_, fun hm => ?_, fun hm => ?_⟩
    · simp [PhysWorld.createBody, hm.ne', not_lt.mpr hm.le]
    · simp [PhysWorld.createBody, hm]
    · simp [PhysWorld.createBody, hm, hm.ne]
  · have hopts : e.getPhysicsData = {} := by
      simp [EntityRec.getPhysicsData, hpd]
    have hmain : p.addEntity e =
        .ok ({ p with
                 world := (p.world.createBody o.position o.quaternion 1
                   { cd with mass := 1, friction := 1/2, density := 1,
                             restitution := 1/2 }).1,
                 entityBodyHandles :=
                   mapSet p.entityBodyHandles e.eid
                     [p.world.nextBodyHandle],
                 log := p.log ++ logs },
             e.setPhysicsBodyData
               (some { body := some (.one p.world.nextBodyHandle),
                       collider := some (.one p.world.nextColliderHandle) })) := by
      simp [PhysicsSys.addEntity, ho, hg, hgs, hni, hopts,
            PhysWorld.createBody, EntityRec.setPhysicsBodyData,
            Bind.bind, Except.bind]
    refine ⟨_, _, hmain, ?_, ?_, ?_⟩
    · simp [PhysWorld.createBody]
    · simp [PhysWorld.createBody]
    · simp [EntityRec.setPhysicsBodyData]

/-- Witness for C7 at mass `5`, `0`, `-1` and a concrete parameterless box
entity. -/
theorem physics_mass_classification_witness :
    (((({} : PhysWorld).createBody Vec3.zero Quat.ident 5
        { shape := .ball 1 }).2.1).btype = .dynamic) ∧
    (((({} : PhysWorld).createBody Vec3.zero Quat.ident 0
        { shape := .ball 1 }).2.1).btype = .fixed) ∧
    (((({} : PhysWorld).createBody Vec3.zero Quat.ident (-1)
        { shape := .ball 1 }).2.1).btype = .kinematicPositionBased) ∧
    ∃ p2 e2,
      PhysicsSys.addEntity { physicsState := { enabled := true } }
          { eid := 1,
            object3D := some { geometry := some { gtype := "SphereGeometry",
                                                  params := { radius := some 1 } } },
            alive := true } = .ok (p2, e2) ∧
      p2.world.colliders.map (fun c => c.desc) =
        [{ shape := .ball 1, mass := 1, friction := 1/2, density := 1,
           restitution := 1/2 }] := by
  have h5 := physics_mass_classification {} Vec3.zero Quat.ident 5
    { shape := .ball 1 } { physicsState := { enabled := true } }
    { eid := 1,
      object3D := some { geometry := some { gtype := "SphereGeometry",
                                            params := { radius := some 1 } } },
      alive := true }
    { geometry := some { gtype := "SphereGeometry",
                         params := { radius := some 1 } } }
    { gtype := "SphereGeometry", params := { radius := some 1 } }
    { shape := .ball 1 } [] rfl rfl rfl rfl rfl
  have h0 := physics_mass_classification {} Vec3.zero Quat.ident 0
    { shape := .ball 1 } { physicsState := { enabled := true } }
    { eid := 1,
      object3D := some { geometry := some { gtype := "SphereGeometry",
                                            params := { radius := some 1 } } },
      alive := true }
    { geometry := some { gtype := "SphereGeometry",
                         params := { radius := some 1 } } }
    { gtype := "SphereGeometry", params := { radius := some 1 } }
    { shape := .ball 1 } [] rfl rfl rfl rfl rfl
  have hn := physics_mass_classification {} Vec3.zero Quat.ident (-1)
    { shape := .ball 1 } { physicsState := { enabled := true } }
    { eid := 1,
      object3D := some { geometry := some { gtype := "SphereGeometry",
                                            params := { radius := some 1 } } },
      alive := true }
    { geometry := some { gtype := "SphereGeometry",
                         params := { radius := some 1 } } }
    { gtype := "SphereGeometry", params := { radius := some 1 } }
    { shape := .ball 1 } [] rfl rfl rfl rfl rfl
  obtain ⟨p2, e2, hok, -, hcoll, -⟩ := h5.2
  refine ⟨h5.1.1 (by norm_num), h0.1.2.1 rfl, hn.1.2.2 (by norm_num),
          p2, e2, hok, ?_⟩
  rw [hcoll]
  rfl

/-- C4 counterexample: a collision event between two instances of ONE
instanced entity resolves both handles to the same entity, which is then
told about itself twice — `A.collide(B, started)` (with `A = B`) is invoked
twice for that event, violating "exactly once". -/
theorem collision_same_entity_cex :
    (PhysicsSys.addEntity { physicsState := { enabled := true } }
        { eid := 7,
          object3D := some { geometry := some { gtype := "SphereGeometry",
                                                params := { radius := some 1 } },
                             instancePositions := some [⟨0,0,0⟩, ⟨2,0,0⟩] },
          alive := true }).map
      (fun pe => ((pe.1.drainEvent ⟨0, 1, true⟩).count
        (.collide 7 7 true))) = .ok 2 := by
  rfl

/-- C4 (amended): for every drained collision event whose two body handles
resolve to DISTINCT entities A and B, `A.collide(B, started)` and
`B.collide(A, started)` are each invoked exactly once (two calls in total),
and an event with an unresolved handle notifies neither side.  When both
handles resolve to the same entity (possible for instanced meshes, which
register several body handles for one entity), that entity is notified
twice — see the counterexample. -/
theorem collision_symmetric_dispatch
    (p : PhysicsSys) (ev : CollisionEvent) (a b : ℕ)
    (h1 : p.getEntityByHandle ev.h1 = some a)
    (h2 : p.getEntityByHandle ev.h2 = some b)
    (hab : a ≠ b) :
    (p.drainEvent ev).count (.collide a b ev.started) = 1 ∧
    (p.drainEvent ev).count (.collide b a ev.started) = 1 ∧
    (p.drainEvent ev).length = 2 ∧
    ∀ (q : PhysicsSys) (ev2 : CollisionEvent),
      (q.getEntityByHandle ev2.h1 = none ∨
       q.getEntityByHandle ev2.h2 = none) →
      q.drainEvent ev2 = [] := by
  have hdrain : p.drainEvent ev =
      [.collide a b ev.started, .collide b a ev.started] := by
    simp [PhysicsSys.drainEvent, h1, h2]
  refine ⟨?_, ?_, ?_, ?_⟩
  · rw [hdrain]
    simp [List.count_cons, hab]
  · rw [hdrain]
    simp [List.count_cons, (Ne.symm hab : b ≠ a)]
  · rw [hdrain]
    rfl
  · intro q ev2 hnone
    unfold PhysicsSys.drainEvent
    rcases hnone with h | h <;> rw [h]
    rcases q.getEntityByHandle ev2.h1 with _ | x <;> rfl

/-- Witness for C4 (amended) at a concrete two-entity reverse index. -/
theorem collision_symmetric_dispatch_witness :
    (PhysicsSys.drainEvent
        { physicsState := { enabled := true },
          entityBodyHandles := [(1, [10]), (2, [20])] }
        ⟨10, 20, true⟩).count (.collide 1 2 true) = 1 ∧
    (PhysicsSys.drainEvent
        { physicsState := { enabled := true },
          entityBodyHandles := [(1, [10]), (2, [20])] }
        ⟨10, 20, true⟩).count (.collide 2 1 true) = 1 := by
  have h := collision_symmetric_dispatch
    { physicsState := { enabled := true },
      entityBodyHandles := [(1, [10]), (2, [20])] }
    ⟨10, 20, true⟩ 1 2 (by decide) (by decide) (by decide)
  exact ⟨h.1, h.2.1⟩

/-- Helper: when `cmPair` emits a pair. -/
theorem cmPair_eq_some (alive : ℕ → Bool) (boxOf : ℕ → Box3) (x y a b : ℕ) :
    cmPair alive boxOf x y = some (a, b) ↔
      (x = a ∧ y = b ∧ a ≠ b ∧ alive a = true ∧ alive b = true ∧
       Box3.intersectsBox (boxOf a) (boxOf b) = true) := by
  unfold cmPair
  split_ifs with hc
  · constructor
    · intro hsome
      obtain ⟨h1, h2⟩ := Prod.mk.injEq .. ▸ Option.some.inj hsome
      subst h1
      subst h2
      exact ⟨rfl, rfl, hc.1, hc.2.1, hc.2.2.1, hc.2.2.2⟩
    · rintro ⟨rfl, rfl, -⟩
      rfl
  · constructor
    · intro hsome
      exact absurd hsome (by simp)
    · rintro ⟨rfl, rfl, h3, h4, h5, h6⟩
      exact absurd ⟨h3, h4, h5, h6⟩ hc

/-- Helper: a dead inner member produces no call. -/
theorem cmPair_dead (alive : ℕ → Bool) (boxOf : ℕ → Box3) (x b : ℕ)
    (hb : alive b = false) : cmPair alive boxOf x b = none := by
  simp [cmPair, hb]

/-- Helper: filtering a side down to its live members does not change the
calls it contributes, since a dead member never passes the guard. -/
theorem filterMap_cmPair_filter (alive : ℕ → Bool) (boxOf : ℕ → Box3)
    (x : ℕ) (bs : List ℕ) :
    (bs.filter (fun b => alive b)).filterMap (cmPair alive boxOf x) =
      bs.filterMap (cmPair alive boxOf x) := by
  induction bs with
  | nil => rfl
  | cons b bs ih =>
    cases hb : alive b
    · simp [List.filter_cons, List.filterMap_cons, hb,
            cmPair_dead alive boxOf x b hb, ih]
    · rcases hp : cmPair alive boxOf x b with _ | p <;>
        simp [List.filter_cons, List.filterMap_cons, hb, hp, ih]

/-- Helper: filtering to the live members is idempotent. -/
theorem filter_alive_idem (alive : ℕ → Bool) (bs : List ℕ) :
    (bs.filter (fun b => alive b)).filter (fun b => alive b) =
      bs.filter (fun b => alive b) :=
  List.filter_eq_self.mpr (fun _ hb => (List.mem_filter.mp hb).2)

/-- Helper: one inner `forEach` pass over the current B set emits the
guarded calls, sets the A-delete flag exactly when the body ran at least
once for a dead `a`, and keeps the live B members in order. -/
theorem cmInner_fold (alive : ℕ → Bool) (boxOf : ℕ → Box3) (a : ℕ)
    (bs : List ℕ) (acc : List (ℕ × ℕ)) (flag : Bool) (sb : List ℕ) :
    bs.foldl (cmInnerStep alive boxOf a) (acc, flag, sb) =
      (acc ++ bs.filterMap (cmPair alive boxOf a),
       flag || (!bs.isEmpty && !alive a),
       sb ++ bs.filter (fun b => alive b)) := by
  induction bs generalizing acc flag sb with
  | nil => simp
  | cons b bs ih =>
    have hstep : cmInnerStep alive boxOf a (acc, flag, sb) b =
        (acc ++ (cmPair alive boxOf a b).toList, flag || !alive a,
         if alive b then sb ++ [b] else sb) := rfl
    rw [List.foldl_cons, hstep, ih]
    simp only [Prod.mk.injEq]
    refine ⟨?_, ?_, ?_⟩
    · rcases hp : cmPair alive boxOf a b with _ | p <;>
        simp [List.filterMap_cons, hp]
    · cases alive a <;> simp
    · cases hb : alive b <;> simp [List.filter_cons, hb]

/-- Helper: the effect of one outer iteration on the accumulator. -/
theorem cmOuterStep_eq (alive : ℕ → Bool) (boxOf : ℕ → Box3)
    (calls : List (ℕ × ℕ)) (sa bs : List ℕ) (a : ℕ) :
    cmOuterStep alive boxOf (calls, sa, bs) a =
      (calls ++ bs.filterMap (cmPair alive boxOf a),
       if bs.isEmpty || alive a then sa ++ [a] else sa,
       bs.filter (fun b => alive b)) := by
  simp only [cmOuterStep, cmInner_fold, Bool.false_or, List.nil_append]
  cases hbe : bs.isEmpty <;> cases ha : alive a <;> simp [hbe, ha]

/-- Helper: the outer fold once the B set has stabilised (it is already
pruned): calls accumulate over the cross product, and every further A
member is pruned exactly when it is dead and the stable B set is
non-empty. -/
theorem cmOuter_fold_stable (alive : ℕ → Bool) (boxOf : ℕ → Box3)
    (as : List ℕ) (calls : List (ℕ × ℕ)) (sa bs : List ℕ)
    (hbs : bs.filter (fun b => alive b) = bs) :
    as.foldl (cmOuterStep alive boxOf) (calls, sa, bs) =
      (calls ++ as.flatMap (fun a => bs.filterMap (cmPair alive boxOf a)),
       sa ++ (if bs.isEmpty then as else as.filter (fun a => alive a)),
       bs) := by
  induction as generalizing calls sa with
  | nil => simp
  | cons a as ih =>
    rw [List.foldl_cons, cmOuterStep_eq, hbs, ih]
    simp only [Prod.mk.injEq, List.flatMap_cons, List.append_assoc]
    refine ⟨trivial, ?_, trivial⟩
    cases hbe : bs.isEmpty <;> cases ha : alive a <;>
      simp [hbe, ha, List.filter_cons]

/-- Helper: the emitted calls ignore the in-flight pruning, since pruned
members are dead and a dead member never passes the guard. -/
theorem cmUpdateHandler_calls (alive : ℕ → Bool) (boxOf : ℕ → Box3)
    (h : CollisionHandler) :
    (cmUpdateHandler alive boxOf h).2 =
      h.entitiesA.flatMap (fun a =>
        h.entitiesB.filterMap (cmPair alive boxOf a)) := by
  rcases hA : h.entitiesA with _ | ⟨a, rest⟩
  · simp [cmUpdateHandler, hA]
  · simp only [cmUpdateHandler, hA]
    rw [List.foldl_cons, cmOuterStep_eq,
        cmOuter_fold_stable alive boxOf rest _ _ _
          (filter_alive_idem alive h.entitiesB)]
    simp [filterMap_cmPair_filter, List.flatMap_cons]

/-- Helper: the B side after the sweep — as soon as the A side is
non-empty, the first outer iteration visits every B member and deletes the
dead ones. -/
theorem cmUpdateHandler_entB (alive : ℕ → Bool) (boxOf : ℕ → Box3)
    (h : CollisionHandler) (hne : h.entitiesA ≠ []) :
    (cmUpdateHandler alive boxOf h).1.entitiesB =
      h.entitiesB.filter (fun b => alive b) := by
  rcases hA : h.entitiesA with _ | ⟨a, rest⟩
  · exact absurd hA hne
  · simp only [cmUpdateHandler, hA]
    rw [List.foldl_cons, cmOuterStep_eq,
        cmOuter_fold_stable alive boxOf rest _ _ _
          (filter_alive_idem alive h.entitiesB)]

/-- Helper: the A side after the sweep, in closed form.  The first member
faces the original B set; every later member faces the pruned B set, and
survives untouched when that set has been emptied. -/
theorem cmUpdateHandler_entA (alive : ℕ → Bool) (boxOf : ℕ → Box3)
    (h : CollisionHandler) :
    (cmUpdateHandler alive boxOf h).1.entitiesA =
      match h.entitiesA with
      | [] => []
      | a :: rest =>
        (if h.entitiesB.isEmpty || alive a then [a] else []) ++
        (if (h.entitiesB.filter (fun b => alive b)).isEmpty then rest
         else rest.filter (fun x => alive x)) := by
  rcases hA : h.entitiesA with _ | ⟨a, rest⟩
  · simp [cmUpdateHandler, hA]
  · simp only [cmUpdateHandler, hA]
    rw [List.foldl_cons, cmOuterStep_eq,
        cmOuter_fold_stable alive boxOf rest _ _ _
          (filter_alive_idem alive h.entitiesB)]
    simp

/-- Helper: membership in the sweep's emitted calls. -/
theorem cmUpdateHandler_mem (alive : ℕ → Bool) (boxOf : ℕ → Box3)
    (h : CollisionHandler) (a b : ℕ) :
    ((a, b) ∈ (cmUpdateHandler alive boxOf h).2) ↔
      (a ∈ h.entitiesA ∧ b ∈ h.entitiesB ∧ a ≠ b ∧ alive a = true ∧
       alive b = true ∧ Box3.intersectsBox (boxOf a) (boxOf b) = true) := by
  rw [cmUpdateHandler_calls]
  simp only [List.mem_flatMap, List.mem_filterMap, cmPair_eq_some]
  constructor
  · rintro ⟨x, hx, y, hy, rfl, rfl, h3, h4, h5, h6⟩
    exact ⟨hx, hy, h3, h4, h5, h6⟩
  · rintro ⟨ha, hb, h3, h4, h5, h6⟩
    exact ⟨a, ha, b, hb, rfl, rfl, h3, h4, h5, h6⟩

/-- Helper: the emitted call list has no duplicate pairs when the two sides
are sets. -/
theorem cmUpdateHandler_calls_nodup (alive : ℕ → Bool) (boxOf : ℕ → Box3)
    (h : CollisionHandler) (hA : h.entitiesA.Nodup)
    (hB : h.entitiesB.Nodup) :
    (cmUpdateHandler alive boxOf h).2.Nodup := by
  rw [cmUpdateHandler_calls, List.nodup_flatMap]
  constructor
  · intro x _
    apply List.Nodup.filterMap ?_ hB
    intro y y' p hp hp'
    obtain ⟨p1, p2⟩ := p
    rw [Option.mem_def, cmPair_eq_some] at hp hp'
    exact hp.2.1.trans hp'.2.1.symm
  · refine hA.imp ?_
    intro x x' hne p hp hp'
    obtain ⟨p1, p2⟩ := p
    rw [List.mem_filterMap] at hp hp'
    obtain ⟨y, -, hy⟩ := hp
    obtain ⟨y', -, hy'⟩ := hp'
    rw [cmPair_eq_some] at hy hy'
    exact hne (hy.1.trans hy'.1.symm)

/-- C8: in one sweep of a registered handler, the callback fires for the
ordered pair `(a, b)` exactly once — it is emitted iff `a` is in the A-side
set, `b` in the B-side set, they are distinct, both alive, and their
bounding boxes currently overlap (so at-rest overlapping pairs fire every
tick), and the emitted list has no duplicates.  Dead entities encountered
during the sweep are pruned: a non-empty A side makes the first outer
iteration visit and prune every dead B member; an A member is itself
checked only while the B set it faces is non-empty, so when some B member
is alive the whole A side is filtered, when the B side is non-empty but
entirely dead it is emptied during the first outer iteration and only the
first A member was ever checked (the rest survive even if dead), and when
the B side starts empty nothing is visited and the A side is untouched. -/
theorem collisionManager_sweep
    (alive : ℕ → Bool) (boxOf : ℕ → Box3) (h : CollisionHandler) (a b : ℕ)
    (hA : h.entitiesA.Nodup) (hB : h.entitiesB.Nodup) :
    (((a, b) ∈ (cmUpdateHandler alive boxOf h).2) ↔
      (a ∈ h.entitiesA ∧ b ∈ h.entitiesB ∧ a ≠ b ∧ alive a = true ∧
       alive b = true ∧
       Box3.intersectsBox (boxOf a) (boxOf b) = true)) ∧
    (cmUpdateHandler alive boxOf h).2.Nodup ∧
    (h.entitiesA ≠ [] →
      (cmUpdateHandler alive boxOf h).1.entitiesB =
        h.entitiesB.filter (fun x => alive x)) ∧
    (h.entitiesB.filter (fun x => alive x) ≠ [] →
      (cmUpdateHandler alive boxOf h).1.entitiesA =
        h.entitiesA.filter (fun x => alive x)) ∧
    (h.entitiesB ≠ [] → h.entitiesB.filter (fun x => alive x) = [] →
      ∀ x rest, h.entitiesA = x :: rest →
        (cmUpdateHandler alive boxOf h).1.entitiesA =
          (if alive x then [x] else []) ++ rest) ∧
    (h.entitiesB = [] →
      (cmUpdateHandler alive boxOf h).1.entitiesA = h.entitiesA) := by
  refine ⟨cmUpdateHandler_mem alive boxOf h a b,
          cmUpdateHandler_calls_nodup alive boxOf h hA hB,
          cmUpdateHandler_entB alive boxOf h, ?_, ?_, ?_⟩
  · intro hlive
    have hBne : h.entitiesB ≠ [] := by
      intro hnil
      exact hlive (by rw [hnil]; rfl)
    have hBe : h.entitiesB.isEmpty = false := by
      cases hfe : h.entitiesB.isEmpty
      · rfl
      · exact absurd (List.isEmpty_iff.mp hfe) hBne
    have hBfe : (h.entitiesB.filter (fun x => alive x)).isEmpty = false := by
      cases hfe : (h.entitiesB.filter (fun x => alive x)).isEmpty
      · rfl
      · exact absurd (List.isEmpty_iff.mp hfe) hlive
    rw [cmUpdateHandler_entA]
    rcases hA2 : h.entitiesA with _ | ⟨x, rest⟩
    · simp
    · cases hx : alive x <;> simp [hBe, hBfe, List.filter_cons, hx]
  · intro hBne hdead x rest hA2
    have hBe : h.entitiesB.isEmpty = false := by
      cases hfe : h.entitiesB.isEmpty
      · rfl
      · exact absurd (List.isEmpty_iff.mp hfe) hBne
    rw [cmUpdateHandler_entA]
    simp [hA2, hBe, hdead]
  · intro hBnil
    rw [cmUpdateHandler_entA]
    rcases hA2 : h.entitiesA with _ | ⟨x, rest⟩
    · simp
    · simp [hA2, hBnil]

/-- Witness for C8 at a concrete handler (`3` dead, everyone overlapping):
the pair `(1, 2)` fires, the dead `3` is pruned from the B side, and since
the pruned B side is still inhabited the dead `3` is also pruned from the
A side. -/
theorem collisionManager_sweep_witness :
    ((1, 2) ∈ (cmUpdateHandler (fun n => decide (n ≠ 3))
        (fun _ => { min := ⟨0,0,0⟩, max := ⟨1,1,1⟩ })
        { name := "h", entitiesA := [1, 3], entitiesB := [2, 3] }).2) ∧
    (cmUpdateHandler (fun n => decide (n ≠ 3))
        (fun _ => { min := ⟨0,0,0⟩, max := ⟨1,1,1⟩ })
        { name := "h", entitiesA := [1, 3], entitiesB := [2, 3] }).1.entitiesB =
      [2] ∧
    (cmUpdateHandler (fun n => decide (n ≠ 3))
        (fun _ => { min := ⟨0,0,0⟩, max := ⟨1,1,1⟩ })
        { name := "h", entitiesA := [1, 3], entitiesB := [2, 3] }).1.entitiesA =
      [1] := by
  have h := collisionManager_sweep (fun n => decide (n ≠ 3))
    (fun _ => { min := ⟨0,0,0⟩, max := ⟨1,1,1⟩ })
    { name := "h", entitiesA := [1, 3], entitiesB := [2, 3] } 1 2
    (by decide) (by decide)
  refine ⟨h.1.mpr (by decide), ?_, ?_⟩
  · rw [h.2.2.1 (by decide)]
    decide
  · rw [h.2.2.2.1 (by decide)]
    decide



/-! ## Helper lemmas for the scene round trip (C1) -/

theorem saveState_eq (e : EntityRec) (o : Object3D) (ho : e.object3D = some o) :
    ∃ e2, e.saveState = .ok (e2, entitySavedState e) ∧
      e2.object3D = e.object3D ∧ e2.components = e.components ∧
      e2.eid = e.eid := by
  obtain ⟨eid, o3, et, al, tg, gt, cs, ud, rot, gr⟩ := e
  have ho2 : o3 = some o := ho
  subst ho2
  exact ⟨_, rfl, rfl, rfl, rfl⟩

theorem compType_saveState (c : EntityComponent) :
    (c.saveState).compType = c.compType := by
  unfold EntityComponent.saveState
  rcases c.payload <;> rfl

theorem compTypes_reconstruct (eid : ℕ) (cs : List EntityComponentState)
    (h : ∀ c ∈ cs, c.compType ∈ componentTypeMap) :
    (createComponentsFromStates eid cs).map (fun c => c.compType) =
      cs.map (fun c => c.compType) := by
  induction cs with
  | nil => rfl
  | cons c t ih =>
    have hc : c.compType ∈ componentTypeMap := h c (List.mem_cons_self ..)
    have hcc : createComponent eid c = some (constructComponent eid c) := by
      simp [createComponent, hc]
    rw [createComponentsFromStates, List.filterMap_cons, hcc]
    simp only [List.map_cons]
    rw [show (constructComponent eid c).compType = c.compType from rfl]
    rw [← createComponentsFromStates,
        ih (fun x hx => h x (List.mem_cons_of_mem _ hx))]

theorem getShape_supported (g : Geometry) (hs : g.gtype ∈ supportedGeomTypes) :
    ∃ cd logs, getShape (some g) = .ok (some cd, logs) := by
  simp only [supportedGeomTypes, List.mem_cons, List.not_mem_nil,
             or_false] at hs
  rcases hres : getShape (some g) with err | ⟨opt, logs⟩
  · exfalso
    rcases hs with h | h | h | h | h | h | h <;> simp [getShape, h] at hres
  · rcases opt with _ | cd
    · exfalso
      rcases hs with h | h | h | h | h | h | h <;> simp [getShape, h] at hres
    · exact ⟨cd, logs, rfl⟩

theorem hasSupportedMesh_congr (e e2 : EntityRec)
    (h : e2.object3D = e.object3D) :
    hasSupportedMesh e2 = hasSupportedMesh e := by
  unfold hasSupportedMesh
  rw [h]

theorem setPhysicsBodyData_fields (e : EntityRec) (d : Option PhysicsBodyData) :
    (e.setPhysicsBodyData d).object3D = e.object3D ∧
    (e.setPhysicsBodyData d).components = e.components ∧
    (e.setPhysicsBodyData d).entityType = e.entityType ∧
    (e.setPhysicsBodyData d).eid = e.eid := by
  rcases d <;> exact ⟨rfl, rfl, rfl, rfl⟩

theorem addEntity_isOk (p : PhysicsSys) (e : EntityRec)
    (h : hasSupportedMesh e = true) :
    (p.addEntity e).isOk = true := by
  unfold hasSupportedMesh at h
  rcases ho : e.object3D with _ | o
  · simp [ho] at h
  simp only [ho] at h
  rcases hg : o.geometry with _ | g
  · simp [hg] at h
  simp only [hg] at h
  obtain ⟨cd, logs, hcd⟩ := getShape_supported g (by simpa using h)
  simp only [PhysicsSys.addEntity, ho, hg, hcd]
  rcases hip : o.instancePositions with _ | ps <;>
    simp [Bind.bind, Except.bind, hip, Except.isOk, Except.toBool]

theorem addEntity_result (p : PhysicsSys) (e : EntityRec)
    (p2 : PhysicsSys) (e2 : EntityRec) (h : p.addEntity e = .ok (p2, e2)) :
    e2.object3D = e.object3D ∧ e2.components = e.components ∧
    e2.entityType = e.entityType ∧ e2.eid = e.eid := by
  unfold PhysicsSys.addEntity at h
  rcases ho : e.object3D with _ | o <;> simp only [ho] at h
  · rw [Except.ok.injEq, Prod.mk.injEq] at h
    rw [← h.2]
    exact ⟨ho, rfl, rfl, rfl⟩
  · rcases hgs : getShape o.geometry with err | ⟨opt, logs⟩ <;>
      simp only [hgs, Bind.bind, Except.bind] at h
    · exact absurd h (by simp)
    · rcases opt with _ | shape
      · simp only [Except.ok.injEq, Prod.mk.injEq] at h
        rw [← h.2]
        exact ⟨ho, rfl, rfl, rfl⟩
      · rcases hip : o.instancePositions with _ | ps <;>
          simp only [hip, Except.ok.injEq, Prod.mk.injEq] at h <;>
          rw [← h.2] <;>
          exact ⟨((setPhysicsBodyData_fields e _).1).trans ho,
                 (setPhysicsBodyData_fields e _).2.1,
                 (setPhysicsBodyData_fields e _).2.2.1,
                 (setPhysicsBodyData_fields e _).2.2.2⟩

theorem removeEntity_fields (p : PhysicsSys) (e : EntityRec) :
    ((p.removeEntity e).2).object3D = e.object3D ∧
    ((p.removeEntity e).2).components = e.components ∧
    ((p.removeEntity e).2).entityType = e.entityType ∧
    ((p.removeEntity e).2).eid = e.eid := by
  unfold PhysicsSys.removeEntity
  exact ⟨(setPhysicsBodyData_fields e none).1,
         (setPhysicsBodyData_fields e none).2.1,
         (setPhysicsBodyData_fields e none).2.2.1,
         (setPhysicsBodyData_fields e none).2.2.2⟩

theorem saveScene_fold (l : List EntityRec) (acc1 : List EntityRec)
    (acc2 : List EntityState)
    (h : ∀ e ∈ l, ∃ o, e.object3D = some o) :
    ∃ es, l.foldlM saveSceneStep (acc1, acc2) =
        .ok (acc1 ++ es, acc2 ++ l.map entitySavedState) ∧
      es.map (fun e => e.eid) = l.map (fun e => e.eid) ∧
      ∀ e2 ∈ es, ∃ o2, e2.object3D = some o2 := by
  induction l generalizing acc1 acc2 with
  | nil => exact ⟨[], by simp [Pure.pure, Except.pure], rfl, by simp⟩
  | cons e t ih =>
    obtain ⟨o, ho⟩ := h e (List.mem_cons_self ..)
    obtain ⟨e2, hsave, ho2, -, heid⟩ := saveState_eq e o ho
    obtain ⟨es, hfold, heids, hobj⟩ :=
      ih (acc1 ++ [e2]) (acc2 ++ [entitySavedState e])
        (fun x hx => h x (List.mem_cons_of_mem _ hx))
    refine ⟨e2 :: es, ?_, ?_, ?_⟩
    · rw [List.foldlM_cons]
      rw [show saveSceneStep (acc1, acc2) e =
            .ok (acc1 ++ [e2], acc2 ++ [entitySavedState e]) by
        simp [saveSceneStep, hsave, Bind.bind, Except.bind, Pure.pure,
              Except.pure]]
      simpa [List.append_assoc] using hfold
    · simp [heids, heid]
    · intro x hx
      rcases List.mem_cons.mp hx with rfl | hx2
      · exact ⟨o, ho2.trans ho⟩
      · exact hobj x hx2

theorem teardown_clears (l : List EntityRec) (s : Scene)
    (hs : s.entities = l) (hnd : (l.map (fun e => e.eid)).Nodup) :
    ∃ p2, l.foldl (fun sc e => sc.removeEntity e true) s =
      { s with physics := p2, entities := [] } := by
  induction l generalizing s with
  | nil =>
    refine ⟨s.physics, ?_⟩
    rw [List.foldl_nil]
    cases s
    simp_all
  | cons e t ih =>
    rw [List.map_cons, List.nodup_cons] at hnd
    have hmem : s.entities.any (fun x => x.eid = e.eid) = true := by
      rw [hs]
      simp
    have hne : ∀ x ∈ t, x.eid ≠ e.eid := by
      intro x hx hcontra
      exact hnd.1 (hcontra ▸ List.mem_map_of_mem _ hx)
    have hfilter : s.entities.filter (fun x => x.eid ≠ e.eid) = t := by
      rw [hs, List.filter_cons]
      rw [if_neg (by simp)]
      exact List.filter_eq_self.mpr (fun x hx => by simpa using hne x hx)
    rcases hre : s.physics.removeEntity e with ⟨pp, e2x⟩
    have hrem : Scene.removeEntity s e true =
        { s with physics := pp, entities := t } := by
      unfold Scene.removeEntity
      rw [if_pos hmem]
      simp only [hre, hfilter]
    rw [List.foldl_cons, hrem]
    obtain ⟨p2, hp2⟩ :=
      ih { s with physics := pp, entities := t } rfl hnd.2
    exact ⟨p2, hp2⟩

theorem createEntity_sphere (eid : ℕ) (st : EntityState) (t : Transform)
    (hT : st.entityType = "Sphere")
    (ht : st.userData.transform = some t) :
    createEntity eid st = .ok
      { eid := eid,
        object3D := some
          { name := jsOrStr st.name "Entity",
            position := t.position,
            quaternion := t.quaternion,
            scale := Vec3.one,
            visible := true,
            geometry := some
              { gtype := "SphereGeometry",
                params := { radius :=
                  st.userData.radius.map (fun r => r * t.scale.x) } },
            instancePositions := none },
        entityType := st.entityType,
        alive := true,
        tags := jsSetOfList st.tags,
        gameplayTags := jsSetOfList st.gameplayTags,
        components := createComponentsFromStates eid st.components,
        userData :=
          { st.userData with
              radius := st.userData.radius.map (fun r => r * t.scale.x),
              transform := some { t with scale := Vec3.one },
              material := bakeMaterial st.userData.material },
        rotation := t.rotation,
        graveyard := [] } := by
  simp [createEntity, createObject3DFor, hT, createObject3DSphere, ht,
        EntityRec.loadState, EntityRec.setName, EntityRec.setTransform,
        EntityRec.setAlive, Bind.bind, Except.bind, Pure.pure, Except.pure]

theorem createEntity_box (eid : ℕ) (st : EntityState) (t : Transform)
    (hT : st.entityType = "Box")
    (ht : st.userData.transform = some t) :
    createEntity eid st = .ok
      { eid := eid,
        object3D := some
          { name := jsOrStr st.name "Entity",
            position := t.position,
            quaternion := t.quaternion,
            scale := Vec3.one,
            visible := true,
            geometry := some
              { gtype := "BoxGeometry",
                params :=
                  { width := st.userData.width.map (fun w => w * t.scale.x),
                    height := st.userData.height.map (fun h => h * t.scale.y),
                    depth := st.userData.depth.map (fun d => d * t.scale.z) } },
            instancePositions := none },
        entityType := st.entityType,
        alive := true,
        tags := jsSetOfList st.tags,
        gameplayTags := jsSetOfList st.gameplayTags,
        components := createComponentsFromStates eid st.components,
        userData :=
          { st.userData with
              width := st.userData.width.map (fun w => w * t.scale.x),
              height := st.userData.height.map (fun h => h * t.scale.y),
              depth := st.userData.depth.map (fun d => d * t.scale.z),
              transform := some { t with scale := Vec3.one },
              material := bakeMaterial st.userData.material },
        rotation := t.rotation,
        graveyard := [] } := by
  simp [createEntity, createObject3DFor, hT, createObject3DBox, ht,
        EntityRec.loadState, EntityRec.setName, EntityRec.setTransform,
        EntityRec.setAlive, Bind.bind, Except.bind, Pure.pure, Except.pure]

theorem createEntity_roundedBox (eid : ℕ) (st : EntityState) (t : Transform)
    (hT : st.entityType = "RoundedBox")
    (ht : st.userData.transform = some t) :
    createEntity eid st = .ok
      { eid := eid,
        object3D := some
          { name := jsOrStr st.name "Entity",
            position := t.position,
            quaternion := t.quaternion,
            scale := Vec3.one,
            visible := true,
            geometry := some
              { gtype := "RoundedBoxGeometry",
                params :=
                  { width := st.userData.width.map (fun w => w * t.scale.x),
                    height := st.userData.height.map (fun h => h * t.scale.y),
                    depth := st.userData.depth.map (fun d => d * t.scale.z),
                    radius := some (jsOrNum st.userData.radius (3/40)) } },
            instancePositions := none },
        entityType := st.entityType,
        alive := true,
        tags := jsSetOfList st.tags,
        gameplayTags := jsSetOfList st.gameplayTags,
        components := createComponentsFromStates eid st.components,
        userData :=
          { st.userData with
              width := st.userData.width.map (fun w => w * t.scale.x),
              height := st.userData.height.map (fun h => h * t.scale.y),
              depth := st.userData.depth.map (fun d => d * t.scale.z),
              transform := some { t with scale := Vec3.one },
              material := bakeMaterial st.userData.material },
        rotation := t.rotation,
        graveyard := [] } := by
  simp [createEntity, createObject3DFor, hT, createObject3DRoundedBox, ht,
        EntityRec.loadState, EntityRec.setName, EntityRec.setTransform,
        EntityRec.setAlive, Bind.bind, Except.bind, Pure.pure, Except.pure]

theorem createEntity_capsule (eid : ℕ) (st : EntityState) (t : Transform)
    (hT : st.entityType = "Capsule")
    (ht : st.userData.transform = some t) :
    createEntity eid st = .ok
      { eid := eid,
        object3D := some
          { name := jsOrStr st.name "Entity",
            position := t.position,
            quaternion := t.quaternion,
            scale := Vec3.one,
            visible := true,
            geometry := some
              { gtype := "CapsuleGeometry",
                params :=
                  { height := st.userData.height.map (fun h => h * t.scale.y),
                    radius := st.userData.radius.map (fun r => r * t.scale.x) } },
            instancePositions := none },
        entityType := st.entityType,
        alive := true,
        tags := jsSetOfList st.tags,
        gameplayTags := jsSetOfList st.gameplayTags,
        components := createComponentsFromStates eid st.components,
        userData :=
          { st.userData with
              radius := st.userData.radius.map (fun r => r * t.scale.x),
              height := st.userData.height.map (fun h => h * t.scale.y),
              transform := some { t with scale := Vec3.one },
              material := bakeMaterial st.userData.material },
        rotation := t.rotation,
        graveyard := [] } := by
  simp [createEntity, createObject3DFor, hT, createObject3DCapsule, ht,
        EntityRec.loadState, EntityRec.setName, EntityRec.setTransform,
        EntityRec.setAlive, Bind.bind, Except.bind, Pure.pure, Except.pure]

theorem createEntity_wf (eid : ℕ) (st : EntityState)
    (hwf : stateWF st = true) :
    ∃ e2, createEntity eid st = .ok e2 ∧
      hasSupportedMesh e2 = true ∧
      compTypesOf e2 = st.components.map (fun c => c.compType) ∧
      e2.getTransform? = (st.userData.transform).map
        (fun t => { position := t.position, quaternion := t.quaternion,
                    rotation := eulerOfQuat t.quaternion,
                    scale := Vec3.one }) := by
  simp only [stateWF, Bool.and_eq_true, decide_eq_true_eq,
             List.all_eq_true] at hwf
  obtain ⟨⟨hmem, htr⟩, hcomps⟩ := hwf
  have hcomp2 : ∀ c ∈ st.components, c.compType ∈ componentTypeMap :=
    fun c hc => by simpa using hcomps c hc
  rcases ht : st.userData.transform with _ | t
  · simp only [ht] at htr
    exact absurd htr (by simp)
  simp only [geometricEntityTypes, List.mem_cons, List.not_mem_nil,
             or_false] at hmem
  rcases hmem with hT | hT | hT | hT
  · refine ⟨_, createEntity_box eid st t hT ht, rfl, ?_, ?_⟩
    · exact compTypes_reconstruct eid st.components hcomp2
    · simp [EntityRec.getTransform?, ht]
  · refine ⟨_, createEntity_sphere eid st t hT ht, rfl, ?_, ?_⟩
    · exact compTypes_reconstruct eid st.components hcomp2
    · simp [EntityRec.getTransform?, ht]
  · refine ⟨_, createEntity_capsule eid st t hT ht, rfl, ?_, ?_⟩
    · exact compTypes_reconstruct eid st.components hcomp2
    · simp [EntityRec.getTransform?, ht]
  · refine ⟨_, createEntity_roundedBox eid st t hT ht, rfl, ?_, ?_⟩
    · exact compTypes_reconstruct eid st.components hcomp2
    · simp [EntityRec.getTransform?, ht]

theorem getTransform?_congr (e e2 : EntityRec) (h : e2.object3D = e.object3D) :
    e2.getTransform? = e.getTransform? := by
  unfold EntityRec.getTransform?
  rw [h]

theorem compTypesOf_congr (e e2 : EntityRec) (h : e2.components = e.components) :
    compTypesOf e2 = compTypesOf e := by
  unfold compTypesOf
  rw [h]

theorem all_true_of_map_eq {α : Type} (f : α → Bool) (l l2 : List α)
    (hmap : l2.map f = l.map f) (h : ∀ x ∈ l, f x = true) :
    ∀ x ∈ l2, f x = true := by
  intro x hx
  have hm : f x ∈ l2.map f := List.mem_map_of_mem f hx
  rw [hmap] at hm
  obtain ⟨y, hy, hfy⟩ := List.mem_map.mp hm
  rw [← hfy]
  exact h y hy

theorem createEntities_fold (sts : List EntityState) (acc : List EntityRec)
    (nid : ℕ) (h : ∀ st ∈ sts, stateWF st = true) :
    ∃ es nid2, sts.foldlM createEntitiesStep (acc, nid) =
        .ok (acc ++ es, nid2) ∧
      es.map compTypesOf =
        sts.map (fun st => st.components.map (fun c => c.compType)) ∧
      es.map EntityRec.getTransform? =
        sts.map (fun st => (st.userData.transform).map
          (fun t => { position := t.position, quaternion := t.quaternion,
                      rotation := eulerOfQuat t.quaternion,
                      scale := Vec3.one })) ∧
      ∀ e ∈ es, hasSupportedMesh e = true := by
  induction sts generalizing acc nid with
  | nil => exact ⟨[], nid, by simp [Pure.pure, Except.pure], by simp, by simp,
                  by simp⟩
  | cons st t ih =>
    obtain ⟨e2, hok, hmesh, hct, htr⟩ :=
      createEntity_wf nid st (h st (List.mem_cons_self ..))
    obtain ⟨es, nid2, hfold, hcts, htrs, hmeshes⟩ :=
      ih (acc ++ [e2]) (nid + 1) (fun x hx => h x (List.mem_cons_of_mem _ hx))
    refine ⟨e2 :: es, nid2, ?_, ?_, ?_, ?_⟩
    · rw [List.foldlM_cons]
      rw [show createEntitiesStep (acc, nid) st = .ok (acc ++ [e2], nid + 1) by
        simp [createEntitiesStep, hok, Bind.bind, Except.bind, Pure.pure,
              Except.pure]]
      simpa [List.append_assoc] using hfold
    · simp [hct, hcts]
    · simp [htr, htrs]
    · intro x hx
      rcases List.mem_cons.mp hx with rfl | hx2
      · exact hmesh
      · exact hmeshes x hx2

theorem scene_addEntities_fold (es : List EntityRec) (s : Scene)
    (h : ∀ e ∈ es, hasSupportedMesh e = true) :
    ∃ p2 es2, es.foldlM (fun sc e => sc.addEntity e true) s =
        .ok { s with physics := p2, entities := s.entities ++ es2 } ∧
      es2.map compTypesOf = es.map compTypesOf ∧
      es2.map EntityRec.getTransform? = es.map EntityRec.getTransform? ∧
      ∀ e ∈ es2, hasSupportedMesh e = true := by
  induction es generalizing s with
  | nil =>
    refine ⟨s.physics, [], ?_, rfl, rfl, by simp⟩
    rw [List.foldlM_nil]
    simp [Pure.pure, Except.pure]
  | cons e t ih =>
    have hok := addEntity_isOk s.physics e (h e (List.mem_cons_self ..))
    rcases hres : s.physics.addEntity e with err | ⟨p2, e2⟩
    · rw [hres] at hok
      exact absurd hok (by simp [Except.isOk, Except.toBool])
    obtain ⟨hobj, hcomp, -, -⟩ := addEntity_result s.physics e p2 e2 hres
    have hstep : Scene.addEntity s e true =
        .ok { s with physics := p2, entities := s.entities ++ [e2] } := by
      simp [Scene.addEntity, hres, Bind.bind, Except.bind, Pure.pure,
            Except.pure]
    obtain ⟨p3, es2, hfold, hcts, htrs, hmeshes⟩ :=
      ih { s with physics := p2, entities := s.entities ++ [e2] }
        (fun x hx => h x (List.mem_cons_of_mem _ hx))
    refine ⟨p3, e2 :: es2, ?_, ?_, ?_, ?_⟩
    · rw [List.foldlM_cons, hstep]
      simpa [List.append_assoc] using hfold
    · simp only [List.map_cons, hcts]
      rw [compTypesOf_congr e e2 hcomp]
    · simp only [List.map_cons, htrs]
      rw [getTransform?_congr e e2 hobj]
    · intro x hx
      rcases List.mem_cons.mp hx with rfl | hx2
      · rw [hasSupportedMesh_congr e x hobj]
        exact h e (List.mem_cons_self ..)
      · exact hmeshes x hx2

theorem removeEntities_fold (es : List EntityRec) (p : PhysicsSys)
    (acc : List EntityRec) :
    ∃ p2 es2, es.foldl removeEntitiesStep (p, acc) = (p2, acc ++ es2) ∧
      es2.map compTypesOf = es.map compTypesOf ∧
      es2.map EntityRec.getTransform? = es.map EntityRec.getTransform? ∧
      es2.map hasSupportedMesh = es.map hasSupportedMesh := by
  induction es generalizing p acc with
  | nil => exact ⟨p, [], by simp, rfl, rfl, rfl⟩
  | cons e t ih =>
    rcases hre : p.removeEntity e with ⟨p2, e2⟩
    have hfields := removeEntity_fields p e
    rw [hre] at hfields
    obtain ⟨hobj, hcomp, -, -⟩ := hfields
    obtain ⟨p3, es2, hfold, hcts, htrs, hmeshes⟩ := ih p2 (acc ++ [e2])
    refine ⟨p3, e2 :: es2, ?_, ?_, ?_, ?_⟩
    · rw [List.foldl_cons]
      rw [show removeEntitiesStep (p, acc) e = (p2, acc ++ [e2]) by
        simp [removeEntitiesStep, hre]]
      simpa [List.append_assoc] using hfold
    · simp only [List.map_cons, hcts]
      rw [compTypesOf_congr e e2 hcomp]
    · simp only [List.map_cons, htrs]
      rw [getTransform?_congr e e2 hobj]
    · simp only [List.map_cons, hmeshes]
      rw [hasSupportedMesh_congr e e2 hobj]

theorem physics_addEntities_fold (es : List EntityRec) (p : PhysicsSys)
    (acc : List EntityRec) (h : ∀ e ∈ es, hasSupportedMesh e = true) :
    ∃ p2 es2, es.foldlM addEntitiesStep (p, acc) = .ok (p2, acc ++ es2) ∧
      es2.map compTypesOf = es.map compTypesOf ∧
      es2.map EntityRec.getTransform? = es.map EntityRec.getTransform? := by
  induction es generalizing p acc with
  | nil => exact ⟨p, [], by simp [Pure.pure, Except.pure], rfl, rfl⟩
  | cons e t ih =>
    have hok := addEntity_isOk p e (h e (List.mem_cons_self ..))
    rcases hres : p.addEntity e with err | ⟨p2, e2⟩
    · rw [hres] at hok
      exact absurd hok (by simp [Except.isOk, Except.toBool])
    obtain ⟨hobj, hcomp, -, -⟩ := addEntity_result p e p2 e2 hres
    obtain ⟨p3, es2, hfold, hcts, htrs⟩ :=
      ih p2 (acc ++ [e2]) (fun x hx => h x (List.mem_cons_of_mem _ hx))
    refine ⟨p3, e2 :: es2, ?_, ?_, ?_⟩
    · rw [List.foldlM_cons]
      rw [show addEntitiesStep (p, acc) e = .ok (p2, acc ++ [e2]) by
        simp [addEntitiesStep, hres, Bind.bind, Except.bind, Pure.pure,
              Except.pure]]
      simpa [List.append_assoc] using hfold
    · simp only [List.map_cons, hcts]
      rw [compTypesOf_congr e e2 hcomp]
    · simp only [List.map_cons, htrs]
      rw [getTransform?_congr e e2 hobj]

theorem setEnabled_props (p : PhysicsSys) (es : List EntityRec)
    (enabled : Bool) (hf : Option Bool)
    (h : ∀ e ∈ es, hasSupportedMesh e = true) :
    ∃ p2 es2, p.setEnabled es enabled hf = .ok (p2, es2) ∧
      es2.map compTypesOf = es.map compTypesOf ∧
      es2.map EntityRec.getTransform? = es.map EntityRec.getTransform? := by
  obtain ⟨pR, esR, hfoldR, hctsR, htrsR, hmeshR⟩ :=
    removeEntities_fold es
      { p with physicsState := { p.physicsState with enabled := enabled } } []
  have hmesh2 : ∀ e ∈ esR, hasSupportedMesh e = true :=
    all_true_of_map_eq hasSupportedMesh es esR hmeshR h
  cases enabled with
  | false =>
    refine ⟨{ pR with
                world := { pR.world with bodies := [], colliders := [] },
                physicsState :=
                  { pR.physicsState with helper := hf.getD false } },
            esR, ?_, hctsR, htrsR⟩
    simp only [PhysicsSys.setEnabled, hfoldR]
    simp [Bind.bind, Except.bind, Pure.pure, Except.pure]
  | true =>
    obtain ⟨pA, esA, hfoldA, hctsA, htrsA⟩ :=
      physics_addEntities_fold esR
        { pR with world := { pR.world with bodies := [], colliders := [] } }
        [] hmesh2
    refine ⟨{ pA with physicsState :=
                { pA.physicsState with helper := hf.getD true } },
            esA, ?_, hctsA.trans hctsR, htrsA.trans htrsR⟩
    simp only [PhysicsSys.setEnabled, hfoldR]
    simp only [List.nil_append] at hfoldA
    simp [Bind.bind, Except.bind, Pure.pure, Except.pure, hfoldA]

theorem physicsLoadState_props (p : PhysicsSys) (es : List EntityRec)
    (st : PhysicsState) (h : ∀ e ∈ es, hasSupportedMesh e = true) :
    ∃ p2 es2, p.loadState es st = .ok (p2, es2) ∧
      es2.map compTypesOf = es.map compTypesOf ∧
      es2.map EntityRec.getTransform? = es.map EntityRec.getTransform? := by
  obtain ⟨p2, es2, hok, hcts, htrs⟩ :=
    setEnabled_props p es st.enabled (some st.helper) h
  refine ⟨{ p2 with
              world := { p2.world with
                           gravity := st.gravity.getD defaultGravity },
              physicsState := st },
          es2, ?_, hcts, htrs⟩
  simp only [PhysicsSys.loadState, hok]
  simp [Bind.bind, Except.bind, Pure.pure, Except.pure]

theorem entityWF_props (e : EntityRec) (h : entityWF e = true) :
    ∃ o, e.object3D = some o ∧ o.scale = Vec3.one ∧
      e.entityType ∈ geometricEntityTypes ∧
      ∀ c ∈ e.components, c.compType ∈ componentTypeMap := by
  simp only [entityWF, Bool.and_eq_true, List.all_eq_true,
             decide_eq_true_eq] at h
  obtain ⟨⟨⟨hobj, hmem⟩, -⟩, hcomps⟩ := h
  rcases ho : e.object3D with _ | o
  · simp only [ho] at hobj
    exact absurd hobj (by simp)
  · simp only [ho, decide_eq_true_eq] at hobj
    exact ⟨o, rfl, hobj, hmem, fun c hc => by simpa using hcomps c hc⟩

theorem stateWF_saved (e : EntityRec) (h : entityWF e = true) :
    stateWF (entitySavedState e) = true := by
  obtain ⟨o, ho, hscale, hmem, hcomps⟩ := entityWF_props e h
  unfold entitySavedState
  rw [ho]
  simp only [stateWF, Bool.and_eq_true, List.all_eq_true, decide_eq_true_eq]
  refine ⟨⟨by simpa using hmem, ?_⟩, ?_⟩
  · simp [transformOfObj, hscale]
  · intro c hc
    obtain ⟨c0, hc0, rfl⟩ := List.mem_map.mp hc
    simpa [compType_saveState] using hcomps c0 hc0

theorem saved_roundtrip_obs (e : EntityRec) (h : entityWF e = true) :
    (entitySavedState e).components.map (fun c => c.compType) =
      compTypesOf e ∧
    ((entitySavedState e).userData.transform).map
      (fun t => { position := t.position, quaternion := t.quaternion,
                  rotation := eulerOfQuat t.quaternion,
                  scale := Vec3.one }) = e.getTransform? := by
  obtain ⟨o, ho, hscale, -, -⟩ := entityWF_props e h
  unfold entitySavedState
  rw [ho]
  constructor
  · simp only [List.map_map, compTypesOf]
    apply List.map_congr_left
    intro c _
    exact compType_saveState c
  · simp [EntityRec.getTransform?, ho, transformOfObj, hscale]

/-- C1 (amended): for every well-formed scene — entities of the geometric
registered types (`Box`/`Sphere`/`Capsule`/`RoundedBox`) with their geometry
parameters present, identity render-node scale (the form entity constructors
normalize to), registered component types, and distinct identities —
`saveSceneState` then `loadSceneState` succeeds and yields a scene with the
same entity count, the same ordered component-type list per entity, and
transforms exactly equal (stronger than the claimed `1e-5` tolerance).  For a
non-identity live scale the round trip re-bakes the scale into geometry
parameters and resets it to identity, so transforms are not preserved in
general — see the counterexample. -/
theorem scene_roundtrip_wf (s : Scene) (hwf : sceneWF s = true) :
    ∃ s1 doc s2, saveSceneState s = .ok (s1, doc) ∧
      loadSceneState s1 doc = .ok s2 ∧
      s2.entities.length = s.entities.length ∧
      s2.entities.map compTypesOf = s.entities.map compTypesOf ∧
      s2.entities.map EntityRec.getTransform? =
        s.entities.map EntityRec.getTransform? := by
  simp only [sceneWF, Bool.and_eq_true, List.all_eq_true,
             decide_eq_true_eq] at hwf
  obtain ⟨hall, hnd⟩ := hwf
  obtain ⟨es1, hfold1, heids1, hobj1⟩ :=
    saveScene_fold s.entities [] []
      (fun e he => by
        obtain ⟨o, ho, -⟩ := entityWF_props e (hall e he)
        exact ⟨o, ho⟩)
  simp only [List.nil_append] at hfold1
  have hsave : saveSceneState s = .ok
      ({ s with entities := es1 },
       { paused := s.paused,
         camera := { fov := s.camera.fov, near := s.camera.near,
                     far := s.camera.far,
                     transform := { position := s.camera.position,
                                    quaternion := s.camera.quaternion,
                                    rotation := eulerOfQuat s.camera.quaternion,
                                    scale := s.camera.scale } },
         weather := { enabled := s.weather.enabled,
                      timeOfDay := s.weather.timeOfDay },
         physics := s.physics.saveState,
         entities := s.entities.map entitySavedState }) := by
    simp only [saveSceneState, hfold1]
    simp [Bind.bind, Except.bind, Pure.pure, Except.pure]
  have heidnd : (es1.map (fun e => e.eid)).Nodup := by
    rw [heids1]
    exact hnd
  obtain ⟨pT, hTD⟩ := teardown_clears es1 { s with entities := es1 } rfl heidnd
  have hstwf : ∀ st ∈ s.entities.map entitySavedState, stateWF st = true := by
    intro st hst
    obtain ⟨e0, he0, rfl⟩ := List.mem_map.mp hst
    exact stateWF_saved e0 (hall e0 he0)
  obtain ⟨es3, nid2, hfoldC, hcts3, htrs3, hmesh3⟩ :=
    createEntities_fold (s.entities.map entitySavedState) [] s.nextEid hstwf
  simp only [List.nil_append] at hfoldC
  obtain ⟨pF, es4, hfoldS, hcts4, htrs4, hmesh4⟩ :=
    scene_addEntities_fold es3
      { s with physics := pT,
               entities := ([] : List EntityRec),
               camera := { fov := s.camera.fov, near := s.camera.near,
                           far := s.camera.far,
                           position := s.camera.position,
                           quaternion := s.camera.quaternion,
                           rotation := eulerOfQuat s.camera.quaternion,
                           scale := s.camera.scale },
               weather := { enabled := s.weather.enabled,
                            timeOfDay := s.weather.timeOfDay,
                            fogDensity := s.weather.fogDensity },
               nextEid := nid2 } hmesh3
  obtain ⟨p5, es5, hok5, hcts5, htrs5⟩ :=
    physicsLoadState_props pF es4 s.physics.saveState hmesh4
  have hdocC : (s.entities.map entitySavedState).map
      (fun st => st.components.map (fun c => c.compType)) =
      s.entities.map compTypesOf := by
    rw [List.map_map]
    apply List.map_congr_left
    intro e he
    exact (saved_roundtrip_obs e (hall e he)).1
  have hdocT : (s.entities.map entitySavedState).map
      (fun st => (st.userData.transform).map
        (fun t => { position := t.position, quaternion := t.quaternion,
                    rotation := eulerOfQuat t.quaternion,
                    scale := Vec3.one })) =
      s.entities.map EntityRec.getTransform? := by
    rw [List.map_map]
    apply List.map_congr_left
    intro e he
    exact (saved_roundtrip_obs e (hall e he)).2
  have hmapsC : es5.map compTypesOf = s.entities.map compTypesOf :=
    hcts5.trans (hcts4.trans (hcts3.trans hdocC))
  have hmapsT : es5.map EntityRec.getTransform? =
      s.entities.map EntityRec.getTransform? :=
    htrs5.trans (htrs4.trans (htrs3.trans hdocT))
  have hlen : es5.length = s.entities.length := by
    have h1 := congrArg List.length hmapsC
    simpa using h1
  have hCA : createAddEntities
      { s with physics := pT,
               entities := ([] : List EntityRec),
               camera := { fov := s.camera.fov, near := s.camera.near,
                           far := s.camera.far,
                           position := s.camera.position,
                           quaternion := s.camera.quaternion,
                           rotation := eulerOfQuat s.camera.quaternion,
                           scale := s.camera.scale },
               weather := { enabled := s.weather.enabled,
                            timeOfDay := s.weather.timeOfDay,
                            fogDensity := s.weather.fogDensity } }
      (s.entities.map entitySavedState) = .ok
      { s with physics := pF,
               entities := es4,
               camera := { fov := s.camera.fov, near := s.camera.near,
                           far := s.camera.far,
                           position := s.camera.position,
                           quaternion := s.camera.quaternion,
                           rotation := eulerOfQuat s.camera.quaternion,
                           scale := s.camera.scale },
               weather := { enabled := s.weather.enabled,
                            timeOfDay := s.weather.timeOfDay,
                            fogDensity := s.weather.fogDensity },
               nextEid := nid2 } := by
    simp only [createAddEntities, hfoldC]
    simp only [Bind.bind, Except.bind]
    rw [hfoldS]
    simp [Pure.pure, Except.pure]
  refine ⟨_, _,
          { s with physics := p5,
                   entities := es5,
                   camera := { fov := s.camera.fov, near := s.camera.near,
                               far := s.camera.far,
                               position := s.camera.position,
                               quaternion := s.camera.quaternion,
                               rotation := eulerOfQuat s.camera.quaternion,
                               scale := s.camera.scale },
                   weather := { enabled := s.weather.enabled,
                                timeOfDay := s.weather.timeOfDay,
                                fogDensity := s.weather.fogDensity },
                   nextEid := nid2 },
          hsave, ?_, hlen, hmapsC, hmapsT⟩
  simp only [loadSceneState, hTD, Bind.bind, Except.bind, hCA, hok5,
             Pure.pure, Except.pure]


/-- C1 counterexample: the round-trip claim fails as stated.  For a sphere
entity whose live render-node scale is `(2, 1, 1)`, loading the saved scene
bakes the scale into the radius and resets the scale to identity: the
original scene reports `scale.x = 2`, the reloaded scene `scale.x = 1`, and
`|2 - 1| = 1` exceeds the claimed `1e-5` tolerance. -/
theorem scene_roundtrip_scale_cex :
    (sceneRoundTrip sceneScaleCex).map
        (fun s2 => s2.entities.map (fun e =>
          (e.getTransform?).map (fun t => t.scale.x))) = .ok [some 1] ∧
    sceneScaleCex.entities.map (fun e =>
        (e.getTransform?).map (fun t => t.scale.x)) = [some 2] ∧
    ¬ (|(2 : ℚ) - 1| ≤ 1 / 100000) := by
  refine ⟨?_, by decide, by norm_num⟩
  simp [sceneRoundTrip, sceneScaleCex, saveSceneState, loadSceneState,
        Scene.removeEntity, Scene.addEntity, createAddEntities, createEntity,
        createObject3DFor, createObject3DSphere, EntityRec.loadState,
        EntityRec.setName, EntityRec.setTransform, EntityRec.setAlive,
        EntityRec.saveState, createComponentsFromStates, createComponent,
        constructComponent, jsSetOfList, jsSetInsert, jsOrStr, bakeMaterial,
        PhysicsSys.addEntity, PhysicsSys.removeEntity, PhysicsSys.loadState,
        PhysicsSys.setEnabled, PhysicsSys.saveState, getShape,
        PhysWorld.createBody, PhysWorld.removeRigidBody,
        PhysWorld.removeColliderH, mapSet, mapDelete, saveSceneStep,
        createEntitiesStep, removeEntitiesStep, addEntitiesStep,
        EntityRec.getPhysicsData, EntityRec.getPhysicsBodyData,
        EntityRec.setPhysicsBodyData, EntityRec.getTransform?, EntityRec.kill,
        eulerOfQuat, Vec3.one, Quat.ident, defaultGravity,
        Bind.bind, Except.bind, Pure.pure, Except.pure, Except.map,
        List.foldl_cons, List.foldl_nil, List.foldlM_cons, List.foldlM_nil,
        List.filterMap_cons, List.filterMap_nil]

/-- Witness for C1 (amended) at a concrete well-formed one-sphere scene. -/
theorem scene_roundtrip_wf_witness :
    sceneWF sceneWFEx = true ∧
    (∃ s1 doc s2, saveSceneState sceneWFEx = .ok (s1, doc) ∧
      loadSceneState s1 doc = .ok s2 ∧
      s2.entities.length = sceneWFEx.entities.length ∧
      s2.entities.map compTypesOf = sceneWFEx.entities.map compTypesOf ∧
      s2.entities.map EntityRec.getTransform? =
        sceneWFEx.entities.map EntityRec.getTransform?) :=
  ⟨by decide, scene_roundtrip_wf sceneWFEx (by decide)⟩

end Orbitworks
